import Mathlib

/-!
# Texture cache entity of Daedalus: `Source/HLEGraphics/CachedTexture.cpp`

A shallow embedding of the translation unit.  The process-wide variables the unit reads and
writes (`gTexelBuffer`, `gRDPFrame`, `gCheckTextureHashFrequency`, the seed behind `FastRand`)
are gathered in `World`, and every function of the unit is a function from a world to a result
and a new world.  The collaborators whose code lives in other translation units (the raw
decoders, the texel transforms, the native texture class, the random generator) are fields of
`Env`; each invocation of one of them is appended to the ghost log `World.calls`, so that
"is invoked", "is not invoked" and "is invoked before" are statements about that log.

Machine integers are natural numbers; `u32` arithmetic is wrapped explicitly with `% 2 ^ 32`
where the source can overflow.  Raw pointers are natural-number addresses.  The diagnostic
helpers (`DAEDALUS_ERROR`, `DAEDALUS_ASSERT`, `DAEDALUS_PROFILE`, the `printf` under
`DAEDALUS_DEBUG_DISPLAYLIST`) have no effect on the state modelled here and are left out.
-/

namespace Daedalus

/-! ## Machine words -/

/-- Wrap a natural number to a 32-bit unsigned word. -/
def u32 (n : Nat) : Nat := n % 2 ^ 32

/-- Subtraction of 32-bit unsigned words, wrapping below zero. -/
def u32sub (a b : Nat) : Nat := (a % 2 ^ 32 + (2 ^ 32 - b % 2 ^ 32)) % 2 ^ 32

/-! ## Data model -/

/-- The part of `TextureInfo` (declared in `HLEGraphics/TextureInfo.h`) this unit reads.
All numeric fields are unsigned words. -/
structure TextureInfo where
  LoadAddress : Nat
  Format : Nat
  Size : Nat
  Width : Nat
  Height : Nat
  Line : Nat
  White : Bool
  EmulateMirrorS : Bool
  EmulateMirrorT : Bool
  deriving DecidableEq, Repr

/-- Modelled from the spec: `CNativeTexture` (declared in `Graphics/NativeTexture.h`), seen
through the interface this unit uses.  `addr` is the identity of the object, the observers
`HasData`, `GetStride`, `GetBytesRequired`, `GetCorrectedWidth`, `GetCorrectedHeight` are
fields fixed at allocation, and `data` is the native pixel storage that `SetData` fills. -/
structure CNativeTexture where
  addr : Nat
  HasData : Bool
  Stride : Nat
  BytesRequired : Nat
  CorrectedWidth : Nat
  CorrectedHeight : Nat
  data : Nat → Nat

/-- A `std::vector<u8>`: its size, the address of its storage and the byte at each index. -/
structure ByteVector where
  size : Nat
  storage : Nat
  bytes : Nat → Nat

/-- One invocation of a collaborator, with the arguments it was given.  Pointer arguments
are addresses. -/
inductive Call where
  | NativeTexture_Create (width height : Nat)
  | ConvertTile (ti : TextureInfo) (texels pitch : Nat)
  | ConvertTexture (ti : TextureInfo) (texels pitch : Nat)
  | Recolour (texels width height stride colour : Nat)
  | ClampTexels (texels width height cwidth cheight stride : Nat)
  | MirrorTexels (mirror_s mirror_t : Bool) (src src_stride dst dst_stride width height : Nat)
  | SetData (texture texels : Nat)
  deriving DecidableEq, Repr

/-- The collaborators defined outside this unit.  A decoder or transform is given the
current contents of the buffer its pointer argument designates and returns the new contents.
`FastRand` maps the generator seed to the drawn value and the next seed; `vectorGrow` gives
the storage address of a vector after it has grown from an old address to a new size;
`White` is the constant `c32::White`. -/
structure Env where
  NativeTexture_Create : Nat → Nat → Option CNativeTexture
  ConvertTile : TextureInfo → (Nat → Nat) → Nat → Bool × (Nat → Nat)
  ConvertTexture : TextureInfo → (Nat → Nat) → Nat → Bool × (Nat → Nat)
  Recolour : (Nat → Nat) → Nat → Nat → Nat → Nat → (Nat → Nat)
  ClampTexels : (Nat → Nat) → Nat → Nat → Nat → Nat → Nat → (Nat → Nat)
  MirrorTexels : Bool → Bool → (Nat → Nat) → Nat → Nat → Nat → Nat → (Nat → Nat)
  SetData : CNativeTexture → (Nat → Nat) → (Nat → Nat)
  FastRand : Nat → Nat × Nat
  vectorGrow : Nat → Nat → Nat
  White : Nat

/-- The process-wide state: the scratch buffer `gTexelBuffer`, the frame clock `gRDPFrame`,
the setting `gCheckTextureHashFrequency`, the seed of `FastRand`, and the ghost log of
collaborator calls, oldest first. -/
structure World where
  gTexelBuffer : ByteVector
  gRDPFrame : Nat
  gCheckTextureHashFrequency : Nat
  gFastRandSeed : Nat
  calls : List Call

/-- The class `CachedTexture`: the descriptor copy, the owned native texture (a null pointer
is `none`) and the two frame stamps. -/
structure CachedTexture where
  mTextureInfo : TextureInfo
  mpTexture : Option CNativeTexture
  mFrameLastUpToDate : Nat
  mFrameLastUsed : Nat

/-! ## Collaborator calls -/

/-- The method `std::vector<u8>::resize` for a size above the current one: old bytes are
kept, new ones are zero, and the storage may move. -/
def ByteVector.resize (env : Env) (v : ByteVector) (n : Nat) : ByteVector :=
  { size := n
    storage := env.vectorGrow v.storage n
    bytes := fun i => if i < v.size then v.bytes i else 0 }

/-- Record a call in the log. -/
def World.log (w : World) (c : Call) : World :=
  { w with calls := w.calls ++ [c] }

/-- Replace the bytes of the scratch buffer, as a write through a pointer into it does;
size and storage address stay. -/
def World.writeTexels (w : World) (bytes : Nat → Nat) : World :=
  { w with gTexelBuffer := { w.gTexelBuffer with bytes := bytes } }

/-- Call of `ConvertTile( ti, texels, pitch )` with `texels` pointing into the scratch
buffer. -/
def callConvertTile (env : Env) (ti : TextureInfo) (texels pitch : Nat) (w : World) :
    Bool × World :=
  let r := env.ConvertTile ti w.gTexelBuffer.bytes pitch
  (r.1, (w.writeTexels r.2).log (Call.ConvertTile ti texels pitch))

/-- Call of `ConvertTexture( ti, texels, pitch )` with `texels` pointing into the scratch
buffer. -/
def callConvertTexture (env : Env) (ti : TextureInfo) (texels pitch : Nat) (w : World) :
    Bool × World :=
  let r := env.ConvertTexture ti w.gTexelBuffer.bytes pitch
  (r.1, (w.writeTexels r.2).log (Call.ConvertTexture ti texels pitch))

/-- Call of `Recolour( texels, width, height, stride, colour )`. -/
def callRecolour (env : Env) (texels width height stride colour : Nat) (w : World) : World :=
  (w.writeTexels (env.Recolour w.gTexelBuffer.bytes width height stride colour)).log
    (Call.Recolour texels width height stride colour)

/-- Call of `ClampTexels( texels, width, height, cwidth, cheight, stride )`. -/
def callClampTexels (env : Env) (texels width height cwidth cheight stride : Nat)
    (w : World) : World :=
  (w.writeTexels (env.ClampTexels w.gTexelBuffer.bytes width height cwidth cheight stride)).log
    (Call.ClampTexels texels width height cwidth cheight stride)

/-- Call of `MirrorTexels( mirror_s, mirror_t, src, src_stride, dst, dst_stride, width,
height )` where both pointers designate the scratch buffer. -/
def callMirrorTexels (env : Env) (mirror_s mirror_t : Bool)
    (src src_stride dst dst_stride width height : Nat) (w : World) : World :=
  (w.writeTexels
      (env.MirrorTexels mirror_s mirror_t w.gTexelBuffer.bytes src_stride dst_stride
        width height)).log
    (Call.MirrorTexels mirror_s mirror_t src src_stride dst dst_stride width height)

/-- Modelled from the spec: `CNativeTexture::SetData( texels )`, the pixel upload, which
copies the buffer into the native storage of the texture and changes nothing else of it. -/
def callSetData (env : Env) (texture : CNativeTexture) (texels : Nat) (w : World) :
    CNativeTexture × World :=
  ({ texture with data := env.SetData texture w.gTexelBuffer.bytes },
   w.log (Call.SetData texture.addr texels))

/-- Call of `CNativeTexture::Create( width, height )`. -/
def callNativeTextureCreate (env : Env) (width height : Nat) (w : World) :
    Option CNativeTexture × World :=
  (env.NativeTexture_Create width height, w.log (Call.NativeTexture_Create width height))

/-- Call of `FastRand()`: the drawn value, and the world with the seed advanced. -/
def callFastRand (env : Env) (w : World) : Nat × World :=
  ((env.FastRand w.gFastRandSeed).1, { w with gFastRandSeed := (env.FastRand w.gFastRandSeed).2 })

/-! ## The unit -/

/-- The first statement of `GenerateTexels`: the scratch buffer is resized to `buffer_size`
when it is smaller. -/
def growTexelBuffer (env : Env) (buffer_size : Nat) (w : World) : World :=
  { w with
    gTexelBuffer :=
      if w.gTexelBuffer.size < buffer_size then w.gTexelBuffer.resize env buffer_size
      else w.gTexelBuffer }

/-- The function `GenerateTexels`.  The result is `some texels` when the source returns
`true` with `*p_texels = texels`, and `none` when it returns `false`. -/
def GenerateTexels (env : Env) (ti : TextureInfo) (pitch buffer_size : Nat) (w : World) :
    Option Nat × World :=
  let w1 := growTexelBuffer env buffer_size w
  let texels := w1.gTexelBuffer.storage
  if ti.Line > 0 then
    let r := callConvertTile env ti texels pitch w1
    if !r.1 then (none, r.2) else (some texels, r.2)
  else
    let r := callConvertTexture env ti texels pitch w1
    if !r.1 then (none, r.2) else (some texels, r.2)

/-- The function `UpdateTexture`.  The texture is passed by pointer and updated in place;
here the updated object is returned. -/
def UpdateTexture (env : Env) (ti : TextureInfo) (texture : Option CNativeTexture)
    (w : World) : Option CNativeTexture × World :=
  match texture with
  | none => (none, w)
  | some tex =>
    if tex.HasData then
      let stride := tex.Stride
      match GenerateTexels env ti stride tex.BytesRequired w with
      | (some texels, w1) =>
        let w2 :=
          if ti.White then callRecolour env texels ti.Width ti.Height stride env.White w1
          else w1
        let w3 :=
          callClampTexels env texels ti.Width ti.Height tex.CorrectedWidth tex.CorrectedHeight
            stride w2
        let mirror_s := ti.EmulateMirrorS
        let mirror_t := ti.EmulateMirrorT
        let w4 :=
          if mirror_s || mirror_t then
            callMirrorTexels env mirror_s mirror_t texels stride texels stride
              ti.Width ti.Height w3
          else w3
        let r := callSetData env tex texels w4
        (some r.1, r.2)
      | (none, w1) => (some tex, w1)
    else (some tex, w)

/-- The constructor `CachedTexture::CachedTexture( ti )`. -/
def CachedTexture.ctor (ti : TextureInfo) (w : World) : CachedTexture :=
  { mTextureInfo := ti
    mpTexture := none
    mFrameLastUpToDate := w.gRDPFrame
    mFrameLastUsed := w.gRDPFrame }

/-- The method `CachedTexture::Initialise`: its boolean result, the object afterwards and
the world afterwards. -/
def CachedTexture.Initialise (env : Env) (self : CachedTexture) (w : World) :
    Bool × CachedTexture × World :=
  let width := self.mTextureInfo.Width
  let height := self.mTextureInfo.Height
  let width := if self.mTextureInfo.EmulateMirrorS then u32 (width * 2) else width
  let height := if self.mTextureInfo.EmulateMirrorT then u32 (height * 2) else height
  let a := callNativeTextureCreate env width height w
  let self1 := { self with mpTexture := a.1 }
  match a.1 with
  | some _ =>
    let s :=
      if a.2.gCheckTextureHashFrequency > 0 then
        let r := callFastRand env a.2
        ({ self1 with
            mFrameLastUpToDate :=
              u32 (r.2.gRDPFrame + (r.1 &&& (r.2.gCheckTextureHashFrequency - 1))) }, r.2)
      else (self1, a.2)
    let u := UpdateTexture env s.1.mTextureInfo s.1.mpTexture s.2
    (true, { s.1 with mpTexture := u.1 }, u.2)
  | none => (false, self1, a.2)

/-- The static method `CachedTexture::Create`: `none` is the null result. -/
def CachedTexture.Create (env : Env) (ti : TextureInfo) (w : World) :
    Option CachedTexture × World :=
  if ti.Width = 0 ∨ ti.Height = 0 then (none, w)
  else
    let texture := CachedTexture.ctor ti w
    let r := texture.Initialise env w
    if !r.1 then (none, r.2.2) else (some r.2.1, r.2.2)

/-- The method `CachedTexture::IsFresh`. -/
def CachedTexture.IsFresh (self : CachedTexture) (w : World) : Bool :=
  w.gRDPFrame == self.mFrameLastUsed

/-- The method `CachedTexture::HasExpired`: its result, and the world with the generator
advanced. -/
def CachedTexture.HasExpired (env : Env) (self : CachedTexture) (w : World) : Bool × World :=
  let r := callFastRand env w
  (decide (u32sub r.2.gRDPFrame self.mFrameLastUsed > 20 + (r.1 &&& 0x3)), r.2)

/-- The method `CachedTexture::UpdateIfNecessary`: the object and the world afterwards. -/
def CachedTexture.UpdateIfNecessary (env : Env) (self : CachedTexture) (w : World) :
    CachedTexture × World :=
  let s :=
    if !self.IsFresh w then
      let u := UpdateTexture env self.mTextureInfo self.mpTexture w
      ({ self with mpTexture := u.1, mFrameLastUpToDate := u.2.gRDPFrame }, u.2)
    else (self, w)
  ({ s.1 with mFrameLastUsed := s.2.gRDPFrame }, s.2)

/-! ## Reading the call log -/

/-- The calls a run appended to the log: those of the later world past the length of the
log of the earlier one. -/
def newCalls (before after : World) : List Call :=
  after.calls.drop before.calls.length

/-- Is the call a native texture allocation? -/
def Call.isAlloc : Call → Bool
  | Call.NativeTexture_Create _ _ => true
  | _ => false

/-- Is the call one of the two raw decoders? -/
def Call.isDecode : Call → Bool
  | Call.ConvertTile _ _ _ => true
  | Call.ConvertTexture _ _ _ => true
  | _ => false

/-- Is the call one of the texel transforms? -/
def Call.isTransform : Call → Bool
  | Call.Recolour _ _ _ _ _ => true
  | Call.ClampTexels _ _ _ _ _ _ => true
  | Call.MirrorTexels _ _ _ _ _ _ _ _ => true
  | _ => false

/-- Is the call a pixel upload? -/
def Call.isUpload : Call → Bool
  | Call.SetData _ _ => true
  | _ => false

/-- The calls the claims expect of `UpdateTexture` after a successful decode into `texels`:
recolouring when the white flag is set, the clamp, mirroring when a mirror flag is set,
the upload. -/
def transformCalls (white : Nat) (ti : TextureInfo) (tex : CNativeTexture) (texels : Nat) :
    List Call :=
  (if ti.White then [Call.Recolour texels ti.Width ti.Height tex.Stride white] else []) ++
    [Call.ClampTexels texels ti.Width ti.Height tex.CorrectedWidth tex.CorrectedHeight
      tex.Stride] ++
    (if ti.EmulateMirrorS || ti.EmulateMirrorT then
      [Call.MirrorTexels ti.EmulateMirrorS ti.EmulateMirrorT texels tex.Stride texels tex.Stride
        ti.Width ti.Height]
     else []) ++
    [Call.SetData tex.addr texels]

/-- The verdict of the raw decoder `GenerateTexels` runs for the descriptor: `ConvertTile`
for a positive line and `ConvertTexture` otherwise, at the given pitch, on the scratch
buffer once it holds `buffer_size` bytes. -/
def decoderVerdict (env : Env) (ti : TextureInfo) (pitch buffer_size : Nat) (w : World) :
    Bool :=
  if 0 < ti.Line then
    (env.ConvertTile ti (growTexelBuffer env buffer_size w).gTexelBuffer.bytes pitch).1
  else (env.ConvertTexture ti (growTexelBuffer env buffer_size w).gTexelBuffer.bytes pitch).1

/-- The texels the selected decoder leaves in the scratch buffer: the output of
`ConvertTile` for a positive line and of `ConvertTexture` otherwise, run at the given pitch
on the scratch buffer once it holds `buffer_size` bytes. -/
def decodedTexels (env : Env) (ti : TextureInfo) (pitch buffer_size : Nat) (w : World) :
    Nat → Nat :=
  if 0 < ti.Line then
    (env.ConvertTile ti (growTexelBuffer env buffer_size w).gTexelBuffer.bytes pitch).2
  else (env.ConvertTexture ti (growTexelBuffer env buffer_size w).gTexelBuffer.bytes pitch).2

/-- The texels the claims expect to be uploaded for decoded texels `b`: `b` recoloured to
white when the white flag is set, the outcome of that clamped from the descriptor size to
the corrected size, and the clamped texels mirrored when a mirror flag is set; every step
at the stride of the texture, each applied to the outcome of the step before. -/
def transformedTexels (env : Env) (ti : TextureInfo) (tex : CNativeTexture) (b : Nat → Nat) :
    Nat → Nat :=
  let recoloured :=
    if ti.White then env.Recolour b ti.Width ti.Height tex.Stride env.White else b
  let clamped :=
    env.ClampTexels recoloured ti.Width ti.Height tex.CorrectedWidth tex.CorrectedHeight
      tex.Stride
  if ti.EmulateMirrorS || ti.EmulateMirrorT then
    env.MirrorTexels ti.EmulateMirrorS ti.EmulateMirrorT clamped tex.Stride tex.Stride
      ti.Width ti.Height
  else clamped

/-! ## Sequences of calls -/

/-- The sizes of the scratch buffer after each call of a sequence of `GenerateTexels` calls,
each given its collaborators, descriptor, pitch and required size and run in the world the
previous call left. -/
def sizesAfter (w : World) : List (Env × TextureInfo × Nat × Nat) → List Nat
  | [] => []
  | (env, ti, pitch, buffer_size) :: rest =>
    (GenerateTexels env ti pitch buffer_size w).2.gTexelBuffer.size ::
      sizesAfter (GenerateTexels env ti pitch buffer_size w).2 rest

/-- The running maximum the claims expect of the buffer size: starting from `s`, the
maximum of `s` and the sizes requested so far, after each request. -/
def runningMax (s : Nat) : List Nat → List Nat
  | [] => []
  | n :: rest => max s n :: runningMax (max s n) rest

/-- A sequence of `UpdateIfNecessary` calls on one entity.  Each call has its own
collaborators and is made in its own world (between two calls the frame clock may advance
and other textures may use the scratch buffer); the entity is carried from call to call.
For each call the record holds the frame of the call, the entity after it and the
collaborator calls it made. -/
def updateRun (e : CachedTexture) : List (Env × World) → List (Nat × CachedTexture × List Call)
  | [] => []
  | (env, w) :: rest =>
    (w.gRDPFrame, (e.UpdateIfNecessary env w).1, newCalls w (e.UpdateIfNecessary env w).2) ::
      updateRun (e.UpdateIfNecessary env w).1 rest

/-- The number of times `UpdateIfNecessary` enters `UpdateTexture` in the world `w`: once
when the entity is not fresh, never when it is. -/
def CachedTexture.refreshes (self : CachedTexture) (w : World) : Nat :=
  if !self.IsFresh w then 1 else 0

/-- The number of times the calls of a sequence made on frame `f` entered `UpdateTexture`. -/
def refreshesOn (f : Nat) (e : CachedTexture) : List (Env × World) → Nat
  | [] => 0
  | (env, w) :: rest =>
    (if w.gRDPFrame = f then e.refreshes w else 0) +
      refreshesOn f (e.UpdateIfNecessary env w).1 rest

/-- The number of decoder calls logged by the calls of a run that were made on frame `f`. -/
def decodesOn (f : Nat) : List (Nat × CachedTexture × List Call) → Nat
  | [] => 0
  | r :: rest =>
    (if r.1 = f then (r.2.2.filter Call.isDecode).length else 0) + decodesOn f rest

/-- Two entity states that differ at most in `mFrameLastUpToDate`. -/
def sameButUpToDate (a b : CachedTexture) : Prop :=
  a.mTextureInfo = b.mTextureInfo ∧ a.mpTexture = b.mpTexture ∧
    a.mFrameLastUsed = b.mFrameLastUsed

/-! ## Sample inputs -/

/-- A 16 by 16 direct-load descriptor (line 0), no recolouring or mirroring. -/
def direct16 : TextureInfo :=
  { LoadAddress := 0x1000, Format := 0, Size := 3, Width := 16, Height := 16, Line := 0,
    White := false, EmulateMirrorS := false, EmulateMirrorT := false }

/-- A 16 by 8 tiled descriptor (line 4), recoloured to white and mirrored along S. -/
def tiledMirrorS : TextureInfo :=
  { LoadAddress := 0x2000, Format := 2, Size := 1, Width := 16, Height := 8, Line := 4,
    White := true, EmulateMirrorS := true, EmulateMirrorT := false }

/-- A descriptor of width zero. -/
def zeroWidth : TextureInfo := { direct16 with Width := 0 }

/-- A native texture of the requested size, 4 bytes a pixel, with storage and no pixels
uploaded yet. -/
def plainTexture (width height : Nat) : CNativeTexture :=
  { addr := 0x8000, HasData := true, Stride := 4 * width, BytesRequired := 4 * width * height,
    CorrectedWidth := width, CorrectedHeight := height, data := fun _ => 0 }

/-- Collaborators that always succeed: both decoders fill the buffer with the byte 0xFF,
the transforms leave the texels as they are, the upload copies the buffer, the generator
is a linear congruential one and a grown vector moves to the address of its size. -/
def goodEnv : Env :=
  { NativeTexture_Create := fun width height => some (plainTexture width height)
    ConvertTile := fun _ _ _ => (true, fun _ => 0xFF)
    ConvertTexture := fun _ _ _ => (true, fun _ => 0xFF)
    Recolour := fun b _ _ _ _ => b
    ClampTexels := fun b _ _ _ _ _ => b
    MirrorTexels := fun _ _ b _ _ _ _ => b
    SetData := fun _ b => b
    FastRand := fun s => ((214013 * s + 2531011) / 65536 % 65536, (214013 * s + 2531011) % 2 ^ 32)
    vectorGrow := fun _ n => 0x10000 + n
    White := 0xFFFFFFFF }

/-- Collaborators whose texture allocation fails. -/
def noAllocEnv : Env := { goodEnv with NativeTexture_Create := fun _ _ => none }

/-- Collaborators whose every step leaves a different mark on the texels, so that the order
of the steps shows in the result: the decoders write `i + 7` at index `i`, `Recolour` maps
a texel `x` to `2 * x + 1`, `ClampTexels` to `3 * x + 2`, `MirrorTexels` to `5 * x + 3`, and
the upload copies the buffer. -/
def markingEnv : Env :=
  { goodEnv with
    ConvertTile := fun _ _ _ => (true, fun i => i + 7)
    ConvertTexture := fun _ _ _ => (true, fun i => i + 7)
    Recolour := fun b _ _ _ _ => fun i => 2 * b i + 1
    ClampTexels := fun b _ _ _ _ _ => fun i => 3 * b i + 2
    MirrorTexels := fun _ _ b _ _ _ _ => fun i => 5 * b i + 3 }

/-- Collaborators whose allocator returns a texture object without data. -/
def noDataEnv : Env :=
  { goodEnv with
    NativeTexture_Create := fun width height =>
      some { plainTexture width height with HasData := false } }

/-- Collaborators whose decoders both fail, after scribbling the byte 7 over the buffer. -/
def badDecodeEnv : Env :=
  { goodEnv with
    ConvertTile := fun _ _ _ => (false, fun _ => 7)
    ConvertTexture := fun _ _ _ => (false, fun _ => 7) }

/-- An entity for the 16 by 16 descriptor, last used and last brought up to date at
frame 90. -/
def entity90 : CachedTexture :=
  { mTextureInfo := direct16
    mpTexture := some (plainTexture 16 16)
    mFrameLastUpToDate := 90
    mFrameLastUsed := 90 }

/-- The world at frame 100 with a hash-check frequency of 4 and the generator at seed 5
(the sample generator then draws 54, whose low two bits are 2). -/
def world100Freq4 : World :=
  { gTexelBuffer := { size := 0, storage := 0, bytes := fun _ => 0 }
    gRDPFrame := 100
    gCheckTextureHashFrequency := 4
    gFastRandSeed := 5
    calls := [] }

/-- The world at frame 100: empty scratch buffer, no hash checks, empty log. -/
def world100 : World :=
  { gTexelBuffer := { size := 0, storage := 0, bytes := fun _ => 0 }
    gRDPFrame := 100
    gCheckTextureHashFrequency := 0
    gFastRandSeed := 1
    calls := [] }

/-- The world of `world100` with the frame clock at `f`. -/
def worldAt (f : Nat) : World := { world100 with gRDPFrame := f }

/-- Four accesses with succeeding collaborators, on frames 100, 101, 101 and 105. -/
def accesses : List (Env × World) :=
  [(goodEnv, worldAt 100), (goodEnv, worldAt 101), (goodEnv, worldAt 101),
   (goodEnv, worldAt 105)]

/-- An entity for the 16 by 16 descriptor last used at frame 100 and brought up to date at
frame 90. -/
def usedAt100 : CachedTexture := { entity90 with mFrameLastUsed := 100 }

/-- The entity `usedAt100` with the stamp `mFrameLastUpToDate` moved to 95. -/
def usedAt100UpToDate95 : CachedTexture := { usedAt100 with mFrameLastUpToDate := 95 }

/-- Two accesses with failing decoders, on frames 101 and 102. -/
def failingAccesses : List (Env × World) :=
  [(badDecodeEnv, worldAt 101), (badDecodeEnv, worldAt 102)]

/-- The entity `Create` returns for the 16 by 16 descriptor at frame 100 without hash
checks. -/
def created100 : CachedTexture :=
  ((CachedTexture.ctor direct16 world100).Initialise goodEnv world100).2.1

/-! ## Auxiliary facts -/

theorem newCalls_of_append (w w2 : World) (tr : List Call) (h : w2.calls = w.calls ++ tr) :
    newCalls w w2 = tr := by
  simp [newCalls, h]

@[simp] theorem log_calls (w : World) (c : Call) : (w.log c).calls = w.calls ++ [c] := rfl

@[simp] theorem log_gRDPFrame (w : World) (c : Call) : (w.log c).gRDPFrame = w.gRDPFrame := rfl

@[simp] theorem log_gCheckTextureHashFrequency (w : World) (c : Call) :
    (w.log c).gCheckTextureHashFrequency = w.gCheckTextureHashFrequency := rfl

@[simp] theorem log_gFastRandSeed (w : World) (c : Call) :
    (w.log c).gFastRandSeed = w.gFastRandSeed := rfl

@[simp] theorem callFastRand_calls (env : Env) (w : World) :
    (callFastRand env w).2.calls = w.calls := rfl

@[simp] theorem callFastRand_gRDPFrame (env : Env) (w : World) :
    (callFastRand env w).2.gRDPFrame = w.gRDPFrame := rfl

@[simp] theorem callFastRand_gCheckTextureHashFrequency (env : Env) (w : World) :
    (callFastRand env w).2.gCheckTextureHashFrequency = w.gCheckTextureHashFrequency := rfl

@[simp] theorem callFastRand_gTexelBuffer (env : Env) (w : World) :
    (callFastRand env w).2.gTexelBuffer = w.gTexelBuffer := rfl

@[simp] theorem log_gTexelBuffer (w : World) (c : Call) :
    (w.log c).gTexelBuffer = w.gTexelBuffer := rfl

@[simp] theorem writeTexels_calls (w : World) (b : Nat → Nat) :
    (w.writeTexels b).calls = w.calls := rfl

@[simp] theorem writeTexels_gRDPFrame (w : World) (b : Nat → Nat) :
    (w.writeTexels b).gRDPFrame = w.gRDPFrame := rfl

@[simp] theorem writeTexels_storage (w : World) (b : Nat → Nat) :
    (w.writeTexels b).gTexelBuffer.storage = w.gTexelBuffer.storage := rfl

@[simp] theorem growTexelBuffer_calls (env : Env) (n : Nat) (w : World) :
    (growTexelBuffer env n w).calls = w.calls := rfl

@[simp] theorem growTexelBuffer_gRDPFrame (env : Env) (n : Nat) (w : World) :
    (growTexelBuffer env n w).gRDPFrame = w.gRDPFrame := rfl

/-- The run of `GenerateTexels` on a descriptor with a positive line. -/
theorem GenerateTexels_tiled (env : Env) (ti : TextureInfo) (pitch n : Nat) (w : World)
    (h : ti.Line > 0) :
    GenerateTexels env ti pitch n w =
      (if (env.ConvertTile ti (growTexelBuffer env n w).gTexelBuffer.bytes pitch).1 = true
        then some (growTexelBuffer env n w).gTexelBuffer.storage else none,
       ((growTexelBuffer env n w).writeTexels
          (env.ConvertTile ti (growTexelBuffer env n w).gTexelBuffer.bytes pitch).2).log
        (Call.ConvertTile ti (growTexelBuffer env n w).gTexelBuffer.storage pitch)) := by
  simp only [GenerateTexels, callConvertTile, h, if_true]
  cases (env.ConvertTile ti (growTexelBuffer env n w).gTexelBuffer.bytes pitch).1 <;> simp

/-- The run of `GenerateTexels` on a descriptor with line zero. -/
theorem GenerateTexels_direct (env : Env) (ti : TextureInfo) (pitch n : Nat) (w : World)
    (h : ti.Line = 0) :
    GenerateTexels env ti pitch n w =
      (if (env.ConvertTexture ti (growTexelBuffer env n w).gTexelBuffer.bytes pitch).1 = true
        then some (growTexelBuffer env n w).gTexelBuffer.storage else none,
       ((growTexelBuffer env n w).writeTexels
          (env.ConvertTexture ti (growTexelBuffer env n w).gTexelBuffer.bytes pitch).2).log
        (Call.ConvertTexture ti (growTexelBuffer env n w).gTexelBuffer.storage pitch)) := by
  simp only [GenerateTexels, callConvertTexture, h, gt_iff_lt, lt_self_iff_false, if_false]
  cases (env.ConvertTexture ti (growTexelBuffer env n w).gTexelBuffer.bytes pitch).1 <;> simp

/-- The function `GenerateTexels` appends exactly one call, a decoder call, and leaves the
frame clock alone. -/
theorem GenerateTexels_effect (env : Env) (ti : TextureInfo) (pitch n : Nat) (w : World) :
    (∃ c, c.isDecode = true ∧ (GenerateTexels env ti pitch n w).2.calls = w.calls ++ [c]) ∧
      (GenerateTexels env ti pitch n w).2.gRDPFrame = w.gRDPFrame := by
  rcases Nat.eq_zero_or_pos ti.Line with h | h
  · rw [GenerateTexels_direct env ti pitch n w h]
    exact ⟨⟨Call.ConvertTexture ti _ pitch, rfl, rfl⟩, rfl⟩
  · rw [GenerateTexels_tiled env ti pitch n w h]
    exact ⟨⟨Call.ConvertTile ti _ pitch, rfl, rfl⟩, rfl⟩

/-- What `UpdateTexture` does once `GenerateTexels` has succeeded on a texture with data:
the calls of `transformCalls` are appended, the frame clock stays, and the texture gets the
upload of the final buffer. -/
theorem UpdateTexture_of_generated (env : Env) (ti : TextureInfo) (tex : CNativeTexture)
    (w w1 : World) (texels : Nat) (hd : tex.HasData = true)
    (hg : GenerateTexels env ti tex.Stride tex.BytesRequired w = (some texels, w1)) :
    (UpdateTexture env ti (some tex) w).2.calls =
        w1.calls ++ transformCalls env.White ti tex texels ∧
      (UpdateTexture env ti (some tex) w).2.gRDPFrame = w1.gRDPFrame ∧
      (UpdateTexture env ti (some tex) w).1 =
        some { tex with
          data := env.SetData tex (UpdateTexture env ti (some tex) w).2.gTexelBuffer.bytes } := by
  simp only [UpdateTexture, hd, if_true, hg, transformCalls]
  cases ti.White <;> cases ti.EmulateMirrorS <;> cases ti.EmulateMirrorT <;>
    simp [hd, callRecolour, callClampTexels, callMirrorTexels, callSetData]

/-- What `UpdateTexture` does once `GenerateTexels` has failed on a texture with data:
nothing more. -/
theorem UpdateTexture_of_failed (env : Env) (ti : TextureInfo) (tex : CNativeTexture)
    (w w1 : World) (hd : tex.HasData = true)
    (hg : GenerateTexels env ti tex.Stride tex.BytesRequired w = (none, w1)) :
    UpdateTexture env ti (some tex) w = (some tex, w1) := by
  simp only [UpdateTexture, hd, if_true, hg]

/-- None of the calls `UpdateTexture` makes after the decoder is an allocation or a decoder
call. -/
theorem transformCalls_kinds (white : Nat) (ti : TextureInfo) (tex : CNativeTexture)
    (texels : Nat) :
    (∀ c ∈ transformCalls white ti tex texels, c.isAlloc = false ∧ c.isDecode = false) := by
  intro c hc
  unfold transformCalls at hc
  simp only [List.mem_append, List.mem_singleton] at hc
  rcases hc with ((hc | hc) | hc) | hc
  · split at hc
    · rw [List.mem_singleton.mp hc]; exact ⟨rfl, rfl⟩
    · cases hc
  · rw [hc]; exact ⟨rfl, rfl⟩
  · split at hc
    · rw [List.mem_singleton.mp hc]; exact ⟨rfl, rfl⟩
    · cases hc
  · rw [hc]; exact ⟨rfl, rfl⟩

/-- The function `UpdateTexture` appends only decoder, transform and upload calls, at most
one of them a decoder call, leaves the frame clock alone, and returns the texture it was
given with at most the pixel data replaced. -/
theorem UpdateTexture_effect (env : Env) (ti : TextureInfo) (t : Option CNativeTexture)
    (w : World) :
    (∃ tr, (UpdateTexture env ti t w).2.calls = w.calls ++ tr ∧
        (∀ c ∈ tr, c.isAlloc = false) ∧ (tr.filter Call.isDecode).length ≤ 1) ∧
      (UpdateTexture env ti t w).2.gRDPFrame = w.gRDPFrame ∧
      ∃ d, (UpdateTexture env ti t w).1 = t.map fun tex => { tex with data := d } := by
  cases t with
  | none => exact ⟨⟨[], by simp [UpdateTexture]⟩, rfl, ⟨fun _ => 0, rfl⟩⟩
  | some tex =>
    by_cases hd : tex.HasData = true
    · obtain ⟨⟨c, hc, hcalls⟩, hframe⟩ :=
        GenerateTexels_effect env ti tex.Stride tex.BytesRequired w
      cases hg : GenerateTexels env ti tex.Stride tex.BytesRequired w with
      | mk r w1 =>
        rw [hg] at hcalls hframe
        cases r with
        | none =>
          rw [UpdateTexture_of_failed env ti tex w w1 hd hg]
          refine ⟨⟨[c], hcalls, ?_, ?_⟩, hframe, ⟨tex.data, rfl⟩⟩
          · intro x hx
            simp only [List.mem_singleton] at hx
            subst hx
            cases x <;> simp_all [Call.isDecode, Call.isAlloc]
          · simp [hc]
        | some texels =>
          obtain ⟨h1, h2, h3⟩ := UpdateTexture_of_generated env ti tex w w1 texels hd hg
          refine ⟨⟨c :: transformCalls env.White ti tex texels, ?_, ?_, ?_⟩, ?_,
            ⟨env.SetData tex (UpdateTexture env ti (some tex) w).2.gTexelBuffer.bytes, ?_⟩⟩
          · rw [h1, hcalls]; simp
          · intro x hx
            rcases List.mem_cons.mp hx with hx | hx
            · subst hx
              cases x <;> simp_all [Call.isDecode, Call.isAlloc]
            · exact (transformCalls_kinds _ _ _ _ x hx).1
          · have : (transformCalls env.White ti tex texels).filter Call.isDecode = [] := by
              rw [List.filter_eq_nil_iff]
              intro x hx
              simp [(transformCalls_kinds _ _ _ _ x hx).2]
            simp [List.filter_cons, hc, this]
          · rw [h2]; exact hframe
          · rw [h3]; rfl
    · simp only [UpdateTexture, hd]
      exact ⟨⟨[], by simp⟩, rfl, ⟨tex.data, rfl⟩⟩

/-! ## Creation -/

/-- C1: for a descriptor of width zero or height zero, `Create` returns null and leaves the
world as it was; in particular the call log is unchanged, so no allocation, decoder,
transform or upload ran. -/
theorem Create_degenerate (env : Env) (ti : TextureInfo) (w : World)
    (h : ti.Width = 0 ∨ ti.Height = 0) :
    (CachedTexture.Create env ti w).1 = none ∧
      (CachedTexture.Create env ti w).2 = w ∧
      newCalls w (CachedTexture.Create env ti w).2 = [] := by
  simp [CachedTexture.Create, h, newCalls]

/-- C1 at the descriptor of width zero, with collaborators that would all succeed. -/
theorem Create_degenerate_witness :
    (zeroWidth.Width = 0 ∨ zeroWidth.Height = 0) ∧
      (CachedTexture.Create goodEnv zeroWidth world100).1 = none ∧
      (CachedTexture.Create goodEnv zeroWidth world100).2 = world100 ∧
      newCalls world100 (CachedTexture.Create goodEnv zeroWidth world100).2 = [] :=
  ⟨Or.inl rfl, Create_degenerate goodEnv zeroWidth world100 (Or.inl rfl)⟩

/-- What `Create` does on a descriptor with non-zero width and height: it is `Initialise`
run on the freshly constructed object. -/
theorem Create_of_nonzero (env : Env) (ti : TextureInfo) (w : World)
    (hw : ti.Width ≠ 0) (hh : ti.Height ≠ 0) :
    CachedTexture.Create env ti w =
      (if ((CachedTexture.ctor ti w).Initialise env w).1 = true then
          some ((CachedTexture.ctor ti w).Initialise env w).2.1
        else none,
       ((CachedTexture.ctor ti w).Initialise env w).2.2) := by
  simp only [CachedTexture.Create, hw, hh, or_self, if_false]
  cases ((CachedTexture.ctor ti w).Initialise env w).1 <;> simp

/-- What `Initialise` does on a freshly constructed object when the allocation succeeds:
it returns `true`, and the object and world are those `UpdateTexture` leaves when run on the
allocated texture in a world whose log has gained the allocation call alone. -/
theorem Initialise_of_allocated (env : Env) (ti : TextureInfo) (w : World)
    (tex : CNativeTexture)
    (ha : env.NativeTexture_Create
        (if ti.EmulateMirrorS then u32 (ti.Width * 2) else ti.Width)
        (if ti.EmulateMirrorT then u32 (ti.Height * 2) else ti.Height) = some tex) :
    ∃ w1 : World,
      w1.calls = w.calls ++ [Call.NativeTexture_Create
          (if ti.EmulateMirrorS then u32 (ti.Width * 2) else ti.Width)
          (if ti.EmulateMirrorT then u32 (ti.Height * 2) else ti.Height)] ∧
      w1.gRDPFrame = w.gRDPFrame ∧
      ((CachedTexture.ctor ti w).Initialise env w).1 = true ∧
      ((CachedTexture.ctor ti w).Initialise env w).2.1.mpTexture =
        (UpdateTexture env ti (some tex) w1).1 ∧
      ((CachedTexture.ctor ti w).Initialise env w).2.1.mTextureInfo = ti ∧
      ((CachedTexture.ctor ti w).Initialise env w).2.1.mFrameLastUsed = w.gRDPFrame ∧
      ((CachedTexture.ctor ti w).Initialise env w).2.2 =
        (UpdateTexture env ti (some tex) w1).2 := by
  by_cases hf : w.gCheckTextureHashFrequency > 0
  · refine ⟨(callFastRand env (w.log (Call.NativeTexture_Create
        (if ti.EmulateMirrorS then u32 (ti.Width * 2) else ti.Width)
        (if ti.EmulateMirrorT then u32 (ti.Height * 2) else ti.Height)))).2, rfl, rfl, ?_⟩
    simp [CachedTexture.Initialise, CachedTexture.ctor, callNativeTextureCreate, ha, hf]
  · refine ⟨w.log (Call.NativeTexture_Create
        (if ti.EmulateMirrorS then u32 (ti.Width * 2) else ti.Width)
        (if ti.EmulateMirrorT then u32 (ti.Height * 2) else ti.Height)), rfl, rfl, ?_⟩
    simp [CachedTexture.Initialise, CachedTexture.ctor, callNativeTextureCreate, ha, hf]

/-- C2 (amended): for a descriptor with width and height above zero whose allocation
succeeds, `Create` returns an entity that owns the object the allocator returned (only its
pixel data may differ), the allocator was called exactly once, first of all calls, with
the width doubled iff `EmulateMirrorS` and the height doubled iff `EmulateMirrorT`, each in
32-bit arithmetic; for dimensions below 2^31 these are the exact products. -/
theorem Create_allocates_doubled (env : Env) (ti : TextureInfo) (w : World)
    (tex : CNativeTexture) (hw : 0 < ti.Width) (hh : 0 < ti.Height)
    (ha : env.NativeTexture_Create
        (if ti.EmulateMirrorS then u32 (ti.Width * 2) else ti.Width)
        (if ti.EmulateMirrorT then u32 (ti.Height * 2) else ti.Height) = some tex) :
    (∃ e d, (CachedTexture.Create env ti w).1 = some e ∧
        e.mpTexture = some { tex with data := d }) ∧
      (newCalls w (CachedTexture.Create env ti w).2).head? =
        some (Call.NativeTexture_Create
          (if ti.EmulateMirrorS then u32 (ti.Width * 2) else ti.Width)
          (if ti.EmulateMirrorT then u32 (ti.Height * 2) else ti.Height)) ∧
      (newCalls w (CachedTexture.Create env ti w).2).filter Call.isAlloc =
        [Call.NativeTexture_Create
          (if ti.EmulateMirrorS then u32 (ti.Width * 2) else ti.Width)
          (if ti.EmulateMirrorT then u32 (ti.Height * 2) else ti.Height)] ∧
      (ti.Width < 2 ^ 31 →
        (if ti.EmulateMirrorS then u32 (ti.Width * 2) else ti.Width) =
          ti.Width * (if ti.EmulateMirrorS then 2 else 1)) ∧
      (ti.Height < 2 ^ 31 →
        (if ti.EmulateMirrorT then u32 (ti.Height * 2) else ti.Height) =
          ti.Height * (if ti.EmulateMirrorT then 2 else 1)) := by
  obtain ⟨w1, hc1, -, hr, htex, -, -, hworld⟩ := Initialise_of_allocated env ti w tex ha
  obtain ⟨⟨tr, htr, hnoalloc, -⟩, -, ⟨d, hd⟩⟩ := UpdateTexture_effect env ti (some tex) w1
  have hcalls : newCalls w (CachedTexture.Create env ti w).2 =
      Call.NativeTexture_Create
          (if ti.EmulateMirrorS then u32 (ti.Width * 2) else ti.Width)
          (if ti.EmulateMirrorT then u32 (ti.Height * 2) else ti.Height) :: tr := by
    apply newCalls_of_append
    rw [Create_of_nonzero env ti w (Nat.pos_iff_ne_zero.mp hw) (Nat.pos_iff_ne_zero.mp hh)]
    simp only [hworld, htr, hc1, List.append_assoc, List.singleton_append]
  refine ⟨⟨((CachedTexture.ctor ti w).Initialise env w).2.1, d, ?_, ?_⟩, ?_, ?_, ?_, ?_⟩
  · rw [Create_of_nonzero env ti w (Nat.pos_iff_ne_zero.mp hw) (Nat.pos_iff_ne_zero.mp hh)]
    simp only [hr, if_true]
  · rw [htex, hd]; rfl
  · rw [hcalls]; rfl
  · rw [hcalls, List.filter_cons]
    have : tr.filter Call.isAlloc = [] := by
      rw [List.filter_eq_nil_iff]
      intro x hx
      simp [hnoalloc x hx]
    simp [Call.isAlloc, this]
  · intro hlt
    cases ti.EmulateMirrorS <;> simp [u32]
    omega
  · intro hlt
    cases ti.EmulateMirrorT <;> simp [u32]
    omega

/-- C2 at the 16 by 8 descriptor mirrored along S: the texture is allocated 32 by 8. -/
theorem Create_allocates_doubled_witness :
    (∃ e d, (CachedTexture.Create goodEnv tiledMirrorS world100).1 = some e ∧
        e.mpTexture = some { plainTexture 32 8 with data := d }) ∧
      (newCalls world100 (CachedTexture.Create goodEnv tiledMirrorS world100).2).head? =
        some (Call.NativeTexture_Create 32 8) ∧
      (newCalls world100 (CachedTexture.Create goodEnv tiledMirrorS world100).2).filter
        Call.isAlloc = [Call.NativeTexture_Create 32 8] :=
  have h := Create_allocates_doubled goodEnv tiledMirrorS world100 (plainTexture 32 8)
    (by decide) (by decide) rfl
  ⟨h.1, h.2.1, h.2.2.1⟩

/-- C2 as stated fails: the 16 by 16 descriptor has width and height above zero, yet
`Create` returns null when the allocator does. -/
theorem Create_null_despite_valid_dims :
    0 < direct16.Width ∧ 0 < direct16.Height ∧
      (CachedTexture.Create noAllocEnv direct16 world100).1 = none :=
  ⟨by decide, by decide, rfl⟩

/-- C3: for a descriptor with non-zero width and height whose allocation fails, `Create`
returns null and the world differs from the initial one only by the allocation call in the
log: no decoder, transform or upload is invoked, and the scratch buffer and the generator
are untouched. -/
theorem Create_allocation_failure (env : Env) (ti : TextureInfo) (w : World)
    (hw : ti.Width ≠ 0) (hh : ti.Height ≠ 0)
    (ha : env.NativeTexture_Create
        (if ti.EmulateMirrorS then u32 (ti.Width * 2) else ti.Width)
        (if ti.EmulateMirrorT then u32 (ti.Height * 2) else ti.Height) = none) :
    (CachedTexture.Create env ti w).1 = none ∧
      (CachedTexture.Create env ti w).2 =
        w.log (Call.NativeTexture_Create
          (if ti.EmulateMirrorS then u32 (ti.Width * 2) else ti.Width)
          (if ti.EmulateMirrorT then u32 (ti.Height * 2) else ti.Height)) ∧
      (∀ c ∈ newCalls w (CachedTexture.Create env ti w).2,
        c.isDecode = false ∧ c.isTransform = false ∧ c.isUpload = false) := by
  have hi : (CachedTexture.ctor ti w).Initialise env w =
      (false, { CachedTexture.ctor ti w with mpTexture := none },
        w.log (Call.NativeTexture_Create
          (if ti.EmulateMirrorS then u32 (ti.Width * 2) else ti.Width)
          (if ti.EmulateMirrorT then u32 (ti.Height * 2) else ti.Height))) := by
    simp [CachedTexture.Initialise, CachedTexture.ctor, callNativeTextureCreate, ha]
  rw [Create_of_nonzero env ti w hw hh, hi]
  refine ⟨by simp, rfl, ?_⟩
  intro c hc
  simp only [newCalls, log_calls, List.drop_left, List.mem_singleton] at hc
  subst hc
  exact ⟨rfl, rfl, rfl⟩

/-- C3 at the 16 by 16 descriptor with an allocator that fails. -/
theorem Create_allocation_failure_witness :
    (CachedTexture.Create noAllocEnv direct16 world100).1 = none ∧
      (CachedTexture.Create noAllocEnv direct16 world100).2 =
        world100.log (Call.NativeTexture_Create 16 16) ∧
      (∀ c ∈ newCalls world100 (CachedTexture.Create noAllocEnv direct16 world100).2,
        c.isDecode = false ∧ c.isTransform = false ∧ c.isUpload = false) :=
  Create_allocation_failure noAllocEnv direct16 world100 (by decide) (by decide) rfl

/-! ## Refresh and expiry -/

/-- The run of `UpdateIfNecessary` on an entity last used on the current frame: only the
stamp `mFrameLastUsed` is written, with the value it already has. -/
theorem UpdateIfNecessary_of_fresh (env : Env) (e : CachedTexture) (w : World)
    (h : e.mFrameLastUsed = w.gRDPFrame) :
    e.UpdateIfNecessary env w = (e, w) := by
  cases e
  simp only at h
  simp [CachedTexture.UpdateIfNecessary, CachedTexture.IsFresh, h]

/-- The run of `UpdateIfNecessary` on an entity last used on another frame: the texture and
world are those `UpdateTexture` leaves, and both stamps become the current frame. -/
theorem UpdateIfNecessary_of_stale (env : Env) (e : CachedTexture) (w : World)
    (h : e.mFrameLastUsed ≠ w.gRDPFrame) :
    e.UpdateIfNecessary env w =
      ({ e with
          mpTexture := (UpdateTexture env e.mTextureInfo e.mpTexture w).1
          mFrameLastUpToDate := w.gRDPFrame
          mFrameLastUsed := w.gRDPFrame },
        (UpdateTexture env e.mTextureInfo e.mpTexture w).2) := by
  have hframe := (UpdateTexture_effect env e.mTextureInfo e.mpTexture w).2.1
  have h2 : ¬ w.gRDPFrame = e.mFrameLastUsed := fun h3 => h h3.symm
  simp [CachedTexture.UpdateIfNecessary, CachedTexture.IsFresh, h2, hframe]

/-- After `UpdateIfNecessary` the stamp `mFrameLastUsed` is the current frame, and the frame
clock is as before. -/
theorem UpdateIfNecessary_lastUsed (env : Env) (e : CachedTexture) (w : World) :
    (e.UpdateIfNecessary env w).1.mFrameLastUsed = w.gRDPFrame ∧
      (e.UpdateIfNecessary env w).2.gRDPFrame = w.gRDPFrame := by
  by_cases h : e.mFrameLastUsed = w.gRDPFrame
  · rw [UpdateIfNecessary_of_fresh env e w h]; exact ⟨h, rfl⟩
  · rw [UpdateIfNecessary_of_stale env e w h]
    exact ⟨rfl, (UpdateTexture_effect env e.mTextureInfo e.mpTexture w).2.1⟩

/-- C4: `UpdateIfNecessary` at frame `w.gRDPFrame` always leaves `mFrameLastUsed` at that
frame.  When the entity was last used on another frame it runs `UpdateTexture` on its
descriptor and texture and sets `mFrameLastUpToDate` to the frame; when it was last used on
this frame it keeps `mFrameLastUpToDate` and the texture and leaves the world, hence the
call log, untouched. -/
theorem UpdateIfNecessary_stamps (env : Env) (e : CachedTexture) (w : World) :
    (e.UpdateIfNecessary env w).1.mFrameLastUsed = w.gRDPFrame ∧
      (e.mFrameLastUsed ≠ w.gRDPFrame →
        (e.UpdateIfNecessary env w).1.mFrameLastUpToDate = w.gRDPFrame ∧
        (e.UpdateIfNecessary env w).1.mpTexture =
          (UpdateTexture env e.mTextureInfo e.mpTexture w).1 ∧
        (e.UpdateIfNecessary env w).2 = (UpdateTexture env e.mTextureInfo e.mpTexture w).2) ∧
      (e.mFrameLastUsed = w.gRDPFrame →
        (e.UpdateIfNecessary env w).1.mFrameLastUpToDate = e.mFrameLastUpToDate ∧
        (e.UpdateIfNecessary env w).1.mpTexture = e.mpTexture ∧
        (e.UpdateIfNecessary env w).2 = w ∧
        newCalls w (e.UpdateIfNecessary env w).2 = []) := by
  refine ⟨(UpdateIfNecessary_lastUsed env e w).1, ?_, ?_⟩
  · intro h
    rw [UpdateIfNecessary_of_stale env e w h]
    exact ⟨rfl, rfl, rfl⟩
  · intro h
    rw [UpdateIfNecessary_of_fresh env e w h]
    exact ⟨rfl, rfl, rfl, by simp [newCalls]⟩

/-- C4 for the entity last used at frame 90, updated at frame 100 and then once more: the
first call converts and stamps both frames, the second changes nothing. -/
theorem UpdateIfNecessary_stamps_witness :
    (entity90.UpdateIfNecessary goodEnv world100).1.mFrameLastUsed = 100 ∧
      (entity90.UpdateIfNecessary goodEnv world100).1.mFrameLastUpToDate = 100 ∧
      newCalls world100 (entity90.UpdateIfNecessary goodEnv world100).2 =
        [Call.ConvertTexture direct16 0x10400 64, Call.ClampTexels 0x10400 16 16 16 16 64,
         Call.SetData 0x8000 0x10400] ∧
      ({ entity90 with mFrameLastUsed := 100 }.UpdateIfNecessary goodEnv world100).1.mFrameLastUpToDate
        = 90 ∧
      ({ entity90 with mFrameLastUsed := 100 }.UpdateIfNecessary goodEnv world100).2 = world100 :=
  ⟨(UpdateIfNecessary_stamps goodEnv entity90 world100).1,
   ((UpdateIfNecessary_stamps goodEnv entity90 world100).2.1 (by decide)).1,
   rfl,
   ((UpdateIfNecessary_stamps goodEnv { entity90 with mFrameLastUsed := 100 } world100).2.2
      rfl).1,
   ((UpdateIfNecessary_stamps goodEnv { entity90 with mFrameLastUsed := 100 } world100).2.2
      rfl).2.2.1⟩

/-- C5: `IsFresh` is true exactly when the frame clock equals `mFrameLastUsed`; so after
`UpdateIfNecessary` at frame `w.gRDPFrame` the entity is fresh in the world the call leaves,
and in any later world `w2` it is fresh exactly when the clock of `w2` still shows that
frame. -/
theorem IsFresh_after_UpdateIfNecessary (env : Env) (e : CachedTexture) (w w2 : World) :
    (e.IsFresh w2 = true ↔ w2.gRDPFrame = e.mFrameLastUsed) ∧
      (e.UpdateIfNecessary env w).1.IsFresh (e.UpdateIfNecessary env w).2 = true ∧
      ((e.UpdateIfNecessary env w).1.IsFresh w2 = true ↔ w2.gRDPFrame = w.gRDPFrame) ∧
      (w2.gRDPFrame ≠ w.gRDPFrame → (e.UpdateIfNecessary env w).1.IsFresh w2 = false) := by
  obtain ⟨hu, hw⟩ := UpdateIfNecessary_lastUsed env e w
  refine ⟨by simp [CachedTexture.IsFresh], ?_, ?_, ?_⟩
  · simp [CachedTexture.IsFresh, hu, hw]
  · simp [CachedTexture.IsFresh, hu]
  · intro h
    simp [CachedTexture.IsFresh, hu, h]

/-- C5 for the entity last used at frame 90 and updated at frame 100: fresh at frame 100,
not fresh at frame 101. -/
theorem IsFresh_after_UpdateIfNecessary_witness :
    (entity90.UpdateIfNecessary goodEnv world100).1.IsFresh world100 = true ∧
      (entity90.UpdateIfNecessary goodEnv world100).1.IsFresh
        { world100 with gRDPFrame := 101 } = false :=
  ⟨(IsFresh_after_UpdateIfNecessary goodEnv entity90 world100 world100).2.2.1.mpr rfl,
   (IsFresh_after_UpdateIfNecessary goodEnv entity90 world100
      { world100 with gRDPFrame := 101 }).2.2.2 (by decide)⟩

/-- C6: with `d` the 32-bit difference between the frame clock and `mFrameLastUsed` and `r`
the value `FastRand` draws at the current seed, `HasExpired` returns `d > 20 + (r & 3)`.
Hence it is false whenever `d ≤ 20` and true whenever `d > 23`, whatever is drawn; and for
`d` from 21 to 23 a generator drawing 0 makes it true while one drawing 3 makes it false. -/
theorem HasExpired_window (env : Env) (e : CachedTexture) (w : World) :
    (e.HasExpired env w).1 =
        decide (u32sub w.gRDPFrame e.mFrameLastUsed >
          20 + ((env.FastRand w.gFastRandSeed).1 &&& 3)) ∧
      (e.mFrameLastUsed ≤ w.gRDPFrame → w.gRDPFrame < 2 ^ 32 →
        u32sub w.gRDPFrame e.mFrameLastUsed = w.gRDPFrame - e.mFrameLastUsed) ∧
      (u32sub w.gRDPFrame e.mFrameLastUsed ≤ 20 → (e.HasExpired env w).1 = false) ∧
      (u32sub w.gRDPFrame e.mFrameLastUsed > 23 → (e.HasExpired env w).1 = true) ∧
      (21 ≤ u32sub w.gRDPFrame e.mFrameLastUsed → u32sub w.gRDPFrame e.mFrameLastUsed ≤ 23 →
        (e.HasExpired { env with FastRand := fun s => (0, s) } w).1 = true ∧
        (e.HasExpired { env with FastRand := fun s => (3, s) } w).1 = false) := by
  have hr : (env.FastRand w.gFastRandSeed).1 &&& 3 ≤ 3 := Nat.and_le_right
  refine ⟨rfl, ?_, ?_, ?_, ?_⟩
  · intro h1 h2
    unfold u32sub
    omega
  · intro h
    simp only [CachedTexture.HasExpired, callFastRand, decide_eq_false_iff_not]
    omega
  · intro h
    simp only [CachedTexture.HasExpired, callFastRand, decide_eq_true_eq]
    omega
  · intro h1 h2
    constructor
    · simp only [CachedTexture.HasExpired, callFastRand, decide_eq_true_eq]
      have : (0 &&& 3 : Nat) = 0 := by decide
      omega
    · simp only [CachedTexture.HasExpired, callFastRand, decide_eq_false_iff_not]
      have : (3 &&& 3 : Nat) = 3 := by decide
      omega

/-- C6 for the entity last used at frame 90: at frame 100 the difference is 10 and it has
not expired; at frame 112 the difference is 22, and it has expired under a generator that
draws 0 but not under one that draws 3. -/
theorem HasExpired_window_witness :
    u32sub world100.gRDPFrame entity90.mFrameLastUsed = 10 ∧
      (entity90.HasExpired goodEnv world100).1 = false ∧
      (entity90.HasExpired { goodEnv with FastRand := fun s => (0, s) }
        { world100 with gRDPFrame := 112 }).1 = true ∧
      (entity90.HasExpired { goodEnv with FastRand := fun s => (3, s) }
        { world100 with gRDPFrame := 112 }).1 = false :=
  ⟨(HasExpired_window goodEnv entity90 world100).2.1 (by decide) (by decide),
   (HasExpired_window goodEnv entity90 world100).2.2.1 (by decide),
   (HasExpired_window goodEnv entity90 { world100 with gRDPFrame := 112 }).2.2.2.2
      (by decide) (by decide)⟩

/-- C7: two calls of `UpdateIfNecessary` on the same frame.  The second call, made in any
world `w2` whose clock shows the frame of the first, returns the entity exactly as the first
call left it, leaves `w2` untouched and so invokes no collaborator; both calls together
invoke a decoder at most once. -/
theorem UpdateIfNecessary_twice (env env2 : Env) (e : CachedTexture) (w w2 : World)
    (hf : w2.gRDPFrame = w.gRDPFrame) :
    (e.UpdateIfNecessary env w).1.UpdateIfNecessary env2 w2 =
        ((e.UpdateIfNecessary env w).1, w2) ∧
      newCalls w2 ((e.UpdateIfNecessary env w).1.UpdateIfNecessary env2 w2).2 = [] ∧
      ((newCalls w (e.UpdateIfNecessary env w).2 ++
          newCalls w2 ((e.UpdateIfNecessary env w).1.UpdateIfNecessary env2 w2).2).filter
        Call.isDecode).length ≤ 1 := by
  have hu := (UpdateIfNecessary_lastUsed env e w).1
  have h2 : (e.UpdateIfNecessary env w).1.UpdateIfNecessary env2 w2 =
      ((e.UpdateIfNecessary env w).1, w2) :=
    UpdateIfNecessary_of_fresh env2 _ w2 (hu.trans hf.symm)
  refine ⟨h2, ?_, ?_⟩
  · rw [h2]; simp [newCalls]
  · rw [h2]
    simp only [newCalls, List.drop_length, List.append_nil]
    by_cases h : e.mFrameLastUsed = w.gRDPFrame
    · rw [UpdateIfNecessary_of_fresh env e w h]
      simp
    · have hw : (e.UpdateIfNecessary env w).2 =
          (UpdateTexture env e.mTextureInfo e.mpTexture w).2 := by
        rw [UpdateIfNecessary_of_stale env e w h]
      obtain ⟨⟨tr, htr, -, hone⟩, -, -⟩ :=
        UpdateTexture_effect env e.mTextureInfo e.mpTexture w
      rw [hw, htr, List.drop_left]
      exact hone

/-- C7 for the entity last used at frame 90, updated twice at frame 100, the second call
made in the world the first one left. -/
theorem UpdateIfNecessary_twice_witness :
    (entity90.UpdateIfNecessary goodEnv world100).2.gRDPFrame = world100.gRDPFrame ∧
      (entity90.UpdateIfNecessary goodEnv world100).1.UpdateIfNecessary badDecodeEnv
          (entity90.UpdateIfNecessary goodEnv world100).2 =
        ((entity90.UpdateIfNecessary goodEnv world100).1,
          (entity90.UpdateIfNecessary goodEnv world100).2) :=
  ⟨rfl, (UpdateIfNecessary_twice goodEnv badDecodeEnv entity90 world100
    (entity90.UpdateIfNecessary goodEnv world100).2 rfl).1⟩

/-! ## Conversion -/

/-- The result of `GenerateTexels` in terms of the verdict of the selected decoder: the
pointer to the scratch storage on success, nothing on failure. -/
theorem GenerateTexels_result (env : Env) (ti : TextureInfo) (pitch n : Nat) (w : World) :
    (GenerateTexels env ti pitch n w).1 =
      if decoderVerdict env ti pitch n w = true then
        some (growTexelBuffer env n w).gTexelBuffer.storage
      else none := by
  rcases Nat.eq_zero_or_pos ti.Line with h | h
  · rw [GenerateTexels_direct env ti pitch n w h]
    simp [decoderVerdict, h]
  · rw [GenerateTexels_tiled env ti pitch n w h]
    simp [decoderVerdict, h]

/-- The calls of `GenerateTexels`: one call of the selected decoder on the scratch storage
at the given pitch. -/
theorem GenerateTexels_newCalls (env : Env) (ti : TextureInfo) (pitch n : Nat) (w : World) :
    (GenerateTexels env ti pitch n w).2.calls =
      w.calls ++
        [if 0 < ti.Line then
            Call.ConvertTile ti (growTexelBuffer env n w).gTexelBuffer.storage pitch
          else Call.ConvertTexture ti (growTexelBuffer env n w).gTexelBuffer.storage pitch] := by
  rcases Nat.eq_zero_or_pos ti.Line with h | h
  · rw [GenerateTexels_direct env ti pitch n w h]
    simp [h]
  · rw [GenerateTexels_tiled env ti pitch n w h]
    simp [h]

/-- The scratch buffer after `GenerateTexels`: the grown buffer, holding the texels the
selected decoder wrote. -/
theorem GenerateTexels_texels (env : Env) (ti : TextureInfo) (pitch n : Nat) (w : World) :
    (GenerateTexels env ti pitch n w).2.gTexelBuffer =
      { (growTexelBuffer env n w).gTexelBuffer with bytes := decodedTexels env ti pitch n w } := by
  rcases Nat.eq_zero_or_pos ti.Line with h | h
  · rw [GenerateTexels_direct env ti pitch n w h]
    simp [decodedTexels, h, World.log, World.writeTexels]
  · rw [GenerateTexels_tiled env ti pitch n w h]
    simp [decodedTexels, h, World.log, World.writeTexels]

/-- The scratch buffer and the texture after `UpdateTexture`, once `GenerateTexels` has
succeeded on a texture with data: the buffer holds the texels `GenerateTexels` left, taken
through recolouring, clamp and mirroring in that order, and the texture holds the upload
of exactly those texels. -/
theorem UpdateTexture_texels_of_generated (env : Env) (ti : TextureInfo)
    (tex : CNativeTexture) (w w1 : World) (texels : Nat) (hd : tex.HasData = true)
    (hg : GenerateTexels env ti tex.Stride tex.BytesRequired w = (some texels, w1)) :
    (UpdateTexture env ti (some tex) w).2.gTexelBuffer =
        { w1.gTexelBuffer with bytes := transformedTexels env ti tex w1.gTexelBuffer.bytes } ∧
      (UpdateTexture env ti (some tex) w).1 =
        some { tex with
          data := env.SetData tex (transformedTexels env ti tex w1.gTexelBuffer.bytes) } := by
  simp only [UpdateTexture, hd, if_true, hg, transformedTexels]
  cases ti.White <;> cases ti.EmulateMirrorS <;> cases ti.EmulateMirrorT <;>
    simp [hd, callRecolour, callClampTexels, callMirrorTexels, callSetData, World.log,
      World.writeTexels]

/-- C8: for a texture with data, when the selected decoder succeeds, the calls of
`UpdateTexture` are, in this order: the decoder; `Recolour` to white over the descriptor
width and height at the texture stride iff the white flag is set; `ClampTexels` from the
descriptor width and height to the corrected width and height at that stride; `MirrorTexels`
with source and destination both the scratch pointer, both strides the texture stride, over
the descriptor width and height, iff a mirror flag is set; one `SetData` of the scratch
pointer.  Each step works on the texels the step before left: the scratch buffer ends up
holding the decoded texels recoloured, then clamped, then mirrored (`transformedTexels` of
`decodedTexels`), with its size and storage as after the growth, and the texture keeps its
identity and receives the upload of exactly those texels. -/
theorem UpdateTexture_call_order (env : Env) (ti : TextureInfo) (tex : CNativeTexture)
    (w : World) (hd : tex.HasData = true)
    (hok : decoderVerdict env ti tex.Stride tex.BytesRequired w = true) :
    newCalls w (UpdateTexture env ti (some tex) w).2 =
        [if 0 < ti.Line then
            Call.ConvertTile ti
              (growTexelBuffer env tex.BytesRequired w).gTexelBuffer.storage tex.Stride
          else
            Call.ConvertTexture ti
              (growTexelBuffer env tex.BytesRequired w).gTexelBuffer.storage tex.Stride] ++
        (if ti.White then
          [Call.Recolour (growTexelBuffer env tex.BytesRequired w).gTexelBuffer.storage
            ti.Width ti.Height tex.Stride env.White]
         else []) ++
        [Call.ClampTexels (growTexelBuffer env tex.BytesRequired w).gTexelBuffer.storage
          ti.Width ti.Height tex.CorrectedWidth tex.CorrectedHeight tex.Stride] ++
        (if ti.EmulateMirrorS || ti.EmulateMirrorT then
          [Call.MirrorTexels ti.EmulateMirrorS ti.EmulateMirrorT
            (growTexelBuffer env tex.BytesRequired w).gTexelBuffer.storage tex.Stride
            (growTexelBuffer env tex.BytesRequired w).gTexelBuffer.storage tex.Stride
            ti.Width ti.Height]
         else []) ++
        [Call.SetData tex.addr (growTexelBuffer env tex.BytesRequired w).gTexelBuffer.storage] ∧
      (UpdateTexture env ti (some tex) w).1 =
        some { tex with
          data := env.SetData tex (UpdateTexture env ti (some tex) w).2.gTexelBuffer.bytes } ∧
      (UpdateTexture env ti (some tex) w).2.gTexelBuffer =
        { (growTexelBuffer env tex.BytesRequired w).gTexelBuffer with
          bytes :=
            transformedTexels env ti tex
              (decodedTexels env ti tex.Stride tex.BytesRequired w) } ∧
      (UpdateTexture env ti (some tex) w).1 =
        some { tex with
          data :=
            env.SetData tex
              (transformedTexels env ti tex
                (decodedTexels env ti tex.Stride tex.BytesRequired w)) } := by
  have hres := GenerateTexels_result env ti tex.Stride tex.BytesRequired w
  have hcalls := GenerateTexels_newCalls env ti tex.Stride tex.BytesRequired w
  have hbuf := GenerateTexels_texels env ti tex.Stride tex.BytesRequired w
  rw [hok, if_pos rfl] at hres
  cases hg : GenerateTexels env ti tex.Stride tex.BytesRequired w with
  | mk r w1 =>
    rw [hg] at hres hcalls hbuf
    simp only at hres hcalls hbuf
    subst hres
    obtain ⟨h1, -, h3⟩ := UpdateTexture_of_generated env ti tex w w1 _ hd hg
    obtain ⟨h4, h5⟩ := UpdateTexture_texels_of_generated env ti tex w w1 _ hd hg
    refine ⟨?_, h3, ?_, ?_⟩
    · apply newCalls_of_append
      rw [h1, hcalls]
      simp only [transformCalls, List.append_assoc]
    · rw [h4, hbuf]
    · rw [h5, hbuf]

/-- C8 for the recoloured 16 by 8 tiled descriptor mirrored along S, on a 32 by 8 texture
in the empty world, with collaborators that each mark the texels: the calls are decoder,
recolour, clamp, mirror, upload, and the texel at index 0 goes from the decoded 7 through
15 (recoloured) and 47 (clamped) to the uploaded 238 (mirrored); no other order of the
three steps gives 238. -/
theorem UpdateTexture_call_order_witness :
    newCalls world100
        (UpdateTexture markingEnv tiledMirrorS (some (plainTexture 32 8)) world100).2 =
      [Call.ConvertTile tiledMirrorS 0x10400 128,
       Call.Recolour 0x10400 16 8 128 0xFFFFFFFF,
       Call.ClampTexels 0x10400 16 8 32 8 128,
       Call.MirrorTexels true false 0x10400 128 0x10400 128 16 8,
       Call.SetData 0x8000 0x10400] ∧
      decodedTexels markingEnv tiledMirrorS 128 1024 world100 0 = 7 ∧
      (UpdateTexture markingEnv tiledMirrorS (some (plainTexture 32 8)) world100).2.gTexelBuffer.bytes
        0 = 238 ∧
      ((UpdateTexture markingEnv tiledMirrorS (some (plainTexture 32 8)) world100).1.map
        fun t => t.data 0) = some 238 ∧
      ((UpdateTexture markingEnv tiledMirrorS (some (plainTexture 32 8)) world100).1.map
        fun t => t.data 5) = some 388 :=
  have h := UpdateTexture_call_order markingEnv tiledMirrorS (plainTexture 32 8) world100 rfl rfl
  ⟨h.1, rfl,
   congrArg (fun b : ByteVector => b.bytes 0) h.2.2.1,
   congrArg (Option.map fun t : CNativeTexture => t.data 0) h.2.2.2,
   congrArg (Option.map fun t : CNativeTexture => t.data 5) h.2.2.2⟩

/-- C9: when the selected decoder fails, `UpdateTexture` returns the texture exactly as it
was given, pixel data included, and none of its calls is a transform or an upload; on a
texture with data its only call is that of the decoder. -/
theorem UpdateTexture_decode_failure (env : Env) (ti : TextureInfo) (tex : CNativeTexture)
    (w : World)
    (hfail : decoderVerdict env ti tex.Stride tex.BytesRequired w = false) :
    (UpdateTexture env ti (some tex) w).1 = some tex ∧
      (∀ c ∈ newCalls w (UpdateTexture env ti (some tex) w).2,
        c.isTransform = false ∧ c.isUpload = false) ∧
      (tex.HasData = true →
        newCalls w (UpdateTexture env ti (some tex) w).2 =
          [if 0 < ti.Line then
              Call.ConvertTile ti
                (growTexelBuffer env tex.BytesRequired w).gTexelBuffer.storage tex.Stride
            else
              Call.ConvertTexture ti
                (growTexelBuffer env tex.BytesRequired w).gTexelBuffer.storage tex.Stride]) := by
  by_cases hd : tex.HasData = true
  · have hres := GenerateTexels_result env ti tex.Stride tex.BytesRequired w
    have hcalls := GenerateTexels_newCalls env ti tex.Stride tex.BytesRequired w
    rw [hfail] at hres
    cases hg : GenerateTexels env ti tex.Stride tex.BytesRequired w with
    | mk r w1 =>
      rw [hg] at hres hcalls
      simp only at hres hcalls
      subst hres
      rw [UpdateTexture_of_failed env ti tex w w1 hd hg]
      have hn := newCalls_of_append w w1 _ hcalls
      refine ⟨rfl, ?_, fun _ => hn⟩
      intro c hc
      simp only at hc
      rw [hn, List.mem_singleton] at hc
      subst hc
      split <;> exact ⟨rfl, rfl⟩
  · simp only [UpdateTexture, hd]
    refine ⟨rfl, ?_, fun h => Bool.noConfusion h⟩
    intro c hc
    simp [newCalls] at hc

/-- C9 for the 16 by 16 direct-load descriptor with failing decoders: the texture is
returned as given and the only call is the decoder. -/
theorem UpdateTexture_decode_failure_witness :
    (UpdateTexture badDecodeEnv direct16 (some (plainTexture 16 16)) world100).1 =
        some (plainTexture 16 16) ∧
      newCalls world100
          (UpdateTexture badDecodeEnv direct16 (some (plainTexture 16 16)) world100).2 =
        [Call.ConvertTexture direct16 0x10400 64] :=
  ⟨(UpdateTexture_decode_failure badDecodeEnv direct16 (plainTexture 16 16) world100 rfl).1,
   (UpdateTexture_decode_failure badDecodeEnv direct16 (plainTexture 16 16) world100 rfl).2.2
     rfl⟩

/-- C10: `GenerateTexels` makes exactly one call, to a raw decoder, on the scratch storage
at the given pitch: `ConvertTile` exactly when the descriptor line is above zero and
`ConvertTexture` exactly when it is zero.  It returns the pointer to the scratch storage when
that decoder returns true and nothing when it returns false, and the storage it points to is
still that of the scratch buffer afterwards. -/
theorem GenerateTexels_decoder_selection (env : Env) (ti : TextureInfo) (pitch n : Nat)
    (w : World) :
    newCalls w (GenerateTexels env ti pitch n w).2 =
        [if 0 < ti.Line then
            Call.ConvertTile ti (growTexelBuffer env n w).gTexelBuffer.storage pitch
          else Call.ConvertTexture ti (growTexelBuffer env n w).gTexelBuffer.storage pitch] ∧
      (Call.ConvertTile ti (growTexelBuffer env n w).gTexelBuffer.storage pitch ∈
          newCalls w (GenerateTexels env ti pitch n w).2 ↔ 0 < ti.Line) ∧
      (Call.ConvertTexture ti (growTexelBuffer env n w).gTexelBuffer.storage pitch ∈
          newCalls w (GenerateTexels env ti pitch n w).2 ↔ ti.Line = 0) ∧
      (GenerateTexels env ti pitch n w).1 =
        (if (if 0 < ti.Line then
              (env.ConvertTile ti (growTexelBuffer env n w).gTexelBuffer.bytes pitch).1
            else
              (env.ConvertTexture ti (growTexelBuffer env n w).gTexelBuffer.bytes pitch).1) = true
          then some (growTexelBuffer env n w).gTexelBuffer.storage
          else none) ∧
      (GenerateTexels env ti pitch n w).2.gTexelBuffer.storage =
        (growTexelBuffer env n w).gTexelBuffer.storage := by
  have hn := newCalls_of_append w _ _ (GenerateTexels_newCalls env ti pitch n w)
  refine ⟨hn, ?_, ?_, GenerateTexels_result env ti pitch n w, ?_⟩
  · rw [hn]
    rcases Nat.eq_zero_or_pos ti.Line with h | h <;> simp [h]
  · rw [hn]
    rcases Nat.eq_zero_or_pos ti.Line with h | h
    · simp [h]
    · simp [h, Nat.pos_iff_ne_zero.mp h]
  · rcases Nat.eq_zero_or_pos ti.Line with h | h
    · rw [GenerateTexels_direct env ti pitch n w h]; rfl
    · rw [GenerateTexels_tiled env ti pitch n w h]; rfl

/-- C10 on the samples: the descriptor of line 0 goes to `ConvertTexture`, the one of line 4
to `ConvertTile`, each once, and a failing decoder makes `GenerateTexels` fail. -/
theorem GenerateTexels_decoder_selection_witness :
    newCalls world100 (GenerateTexels goodEnv direct16 64 1024 world100).2 =
        [Call.ConvertTexture direct16 0x10400 64] ∧
      newCalls world100 (GenerateTexels goodEnv tiledMirrorS 128 1024 world100).2 =
        [Call.ConvertTile tiledMirrorS 0x10400 128] ∧
      (GenerateTexels goodEnv tiledMirrorS 128 1024 world100).1 = some 0x10400 ∧
      (GenerateTexels badDecodeEnv tiledMirrorS 128 1024 world100).1 = none :=
  ⟨(GenerateTexels_decoder_selection goodEnv direct16 64 1024 world100).1,
   (GenerateTexels_decoder_selection goodEnv tiledMirrorS 128 1024 world100).1,
   (GenerateTexels_decoder_selection goodEnv tiledMirrorS 128 1024 world100).2.2.2.1,
   (GenerateTexels_decoder_selection badDecodeEnv tiledMirrorS 128 1024 world100).2.2.2.1⟩

/-! ## Scratch buffer -/

/-- The size of the scratch buffer after `GenerateTexels` is the larger of the size before
and the size required. -/
theorem GenerateTexels_size (env : Env) (ti : TextureInfo) (pitch n : Nat) (w : World) :
    (GenerateTexels env ti pitch n w).2.gTexelBuffer.size = max w.gTexelBuffer.size n := by
  have hg : (growTexelBuffer env n w).gTexelBuffer.size = max w.gTexelBuffer.size n := by
    by_cases h : w.gTexelBuffer.size < n
    · simp [growTexelBuffer, h, ByteVector.resize, Nat.max_eq_right (Nat.le_of_lt h)]
    · simp [growTexelBuffer, h, Nat.max_eq_left (Nat.le_of_not_lt h)]
  rcases Nat.eq_zero_or_pos ti.Line with h | h
  · rw [GenerateTexels_direct env ti pitch n w h]; exact hg
  · rw [GenerateTexels_tiled env ti pitch n w h]; exact hg

/-- C11: after `GenerateTexels` the scratch buffer has size `max s n`, for `s` the size
before and `n` the size required, whatever the decoder returns.  Over a sequence of calls
the sizes are the running maximum of the sizes required, so they never decrease and each
is at least the size required by its call. -/
theorem GenerateTexels_size_monotone (w : World)
    (reqs : List (Env × TextureInfo × Nat × Nat)) :
    (∀ (env : Env) (ti : TextureInfo) (pitch n : Nat),
        (GenerateTexels env ti pitch n w).2.gTexelBuffer.size = max w.gTexelBuffer.size n) ∧
      sizesAfter w reqs = runningMax w.gTexelBuffer.size (reqs.map fun r => r.2.2.2) ∧
      List.Chain (· ≤ ·) w.gTexelBuffer.size (sizesAfter w reqs) ∧
      List.Forall₂ (fun r s => r.2.2.2 ≤ s) reqs (sizesAfter w reqs) := by
  refine ⟨fun env ti pitch n => GenerateTexels_size env ti pitch n w, ?_, ?_, ?_⟩
  · induction reqs generalizing w with
    | nil => rfl
    | cons r rest ih =>
      obtain ⟨env, ti, pitch, n⟩ := r
      simp only [sizesAfter, List.map_cons, runningMax, GenerateTexels_size]
      rw [ih, GenerateTexels_size]
  · induction reqs generalizing w with
    | nil => exact List.Chain.nil
    | cons r rest ih =>
      obtain ⟨env, ti, pitch, n⟩ := r
      simp only [sizesAfter]
      refine List.Chain.cons ?_ (ih _)
      rw [GenerateTexels_size]
      exact Nat.le_max_left _ _
  · induction reqs generalizing w with
    | nil => exact List.Forall₂.nil
    | cons r rest ih =>
      obtain ⟨env, ti, pitch, n⟩ := r
      simp only [sizesAfter]
      refine List.Forall₂.cons ?_ (ih _)
      rw [GenerateTexels_size]
      exact Nat.le_max_right _ _

/-- C11 on the requests 100, 50, 200, 10 from the empty buffer, the third with failing
decoders: the sizes are 100, 100, 200, 200. -/
theorem GenerateTexels_size_monotone_witness :
    sizesAfter world100
        [(goodEnv, direct16, 64, 100), (goodEnv, tiledMirrorS, 128, 50),
         (badDecodeEnv, direct16, 64, 200), (goodEnv, direct16, 64, 10)] =
      [100, 100, 200, 200] :=
  (GenerateTexels_size_monotone world100
    [(goodEnv, direct16, 64, 100), (goodEnv, tiledMirrorS, 128, 50),
     (badDecodeEnv, direct16, 64, 200), (goodEnv, direct16, 64, 10)]).2.1

/-! ## Stamps at creation -/

/-- The stamp `mFrameLastUpToDate` that `Initialise` leaves on a freshly constructed object
when the allocation succeeds. -/
theorem Initialise_upToDate (env : Env) (ti : TextureInfo) (w : World) (tex : CNativeTexture)
    (ha : env.NativeTexture_Create
        (if ti.EmulateMirrorS then u32 (ti.Width * 2) else ti.Width)
        (if ti.EmulateMirrorT then u32 (ti.Height * 2) else ti.Height) = some tex) :
    ((CachedTexture.ctor ti w).Initialise env w).2.1.mFrameLastUpToDate =
      if 0 < w.gCheckTextureHashFrequency then
        u32 (w.gRDPFrame +
          ((env.FastRand w.gFastRandSeed).1 &&& (w.gCheckTextureHashFrequency - 1)))
      else w.gRDPFrame := by
  by_cases hf : 0 < w.gCheckTextureHashFrequency <;>
    simp [CachedTexture.Initialise, CachedTexture.ctor, callNativeTextureCreate, callFastRand,
      ha, hf]

/-- What a successful `Create` returns: the object `Initialise` leaves. -/
theorem Create_of_allocated (env : Env) (ti : TextureInfo) (w : World) (tex : CNativeTexture)
    (hw : ti.Width ≠ 0) (hh : ti.Height ≠ 0)
    (ha : env.NativeTexture_Create
        (if ti.EmulateMirrorS then u32 (ti.Width * 2) else ti.Width)
        (if ti.EmulateMirrorT then u32 (ti.Height * 2) else ti.Height) = some tex) :
    CachedTexture.Create env ti w =
      (some ((CachedTexture.ctor ti w).Initialise env w).2.1,
        ((CachedTexture.ctor ti w).Initialise env w).2.2) := by
  obtain ⟨w1, -, -, hr, -⟩ := Initialise_of_allocated env ti w tex ha
  rw [Create_of_nonzero env ti w hw hh, hr, if_pos rfl]

/-- C12: a successful `Create` on frame `c = w.gRDPFrame` with hash-check frequency
`F = w.gCheckTextureHashFrequency` and `r` the value `FastRand` draws returns an entity with
`mFrameLastUsed = c`.  For `F ≥ 1` (a power of two or not) its `mFrameLastUpToDate` is the
32-bit sum of `c` and `r & (F-1)`, an offset below `F`, which is `c + (r & (F-1))` itself as
long as `c + F` does not pass 2^32; for `F = 0` it is `c`. -/
theorem Create_jitter (env : Env) (ti : TextureInfo) (w : World) (tex : CNativeTexture)
    (hw : ti.Width ≠ 0) (hh : ti.Height ≠ 0)
    (ha : env.NativeTexture_Create
        (if ti.EmulateMirrorS then u32 (ti.Width * 2) else ti.Width)
        (if ti.EmulateMirrorT then u32 (ti.Height * 2) else ti.Height) = some tex) :
    ∃ e, (CachedTexture.Create env ti w).1 = some e ∧
      e.mFrameLastUsed = w.gRDPFrame ∧
      (1 ≤ w.gCheckTextureHashFrequency →
        e.mFrameLastUpToDate =
          u32 (w.gRDPFrame +
            ((env.FastRand w.gFastRandSeed).1 &&& (w.gCheckTextureHashFrequency - 1))) ∧
        ((env.FastRand w.gFastRandSeed).1 &&& (w.gCheckTextureHashFrequency - 1)) <
          w.gCheckTextureHashFrequency ∧
        (w.gRDPFrame + w.gCheckTextureHashFrequency ≤ 2 ^ 32 →
          e.mFrameLastUpToDate =
            w.gRDPFrame +
              ((env.FastRand w.gFastRandSeed).1 &&& (w.gCheckTextureHashFrequency - 1)))) ∧
      (w.gCheckTextureHashFrequency = 0 → e.mFrameLastUpToDate = w.gRDPFrame) := by
  obtain ⟨w1, -, -, -, -, -, hused, -⟩ := Initialise_of_allocated env ti w tex ha
  have hup := Initialise_upToDate env ti w tex ha
  have hand : (env.FastRand w.gFastRandSeed).1 &&& (w.gCheckTextureHashFrequency - 1) ≤
      w.gCheckTextureHashFrequency - 1 := Nat.and_le_right
  refine ⟨_, by rw [Create_of_allocated env ti w tex hw hh ha], hused, ?_, ?_⟩
  · intro hF
    rw [hup, if_pos (show 0 < w.gCheckTextureHashFrequency from hF)]
    refine ⟨rfl, by omega, ?_⟩
    intro hle
    unfold u32
    omega
  · intro hF
    rw [hup, hF]
    rfl

/-- C12 for the 16 by 16 descriptor created at frame 100 with frequency 4, the generator
drawing 54: `mFrameLastUpToDate` is 102 and `mFrameLastUsed` is 100; with frequency 0 both
are 100. -/
theorem Create_jitter_witness :
    (∃ e, (CachedTexture.Create goodEnv direct16 world100Freq4).1 = some e ∧
        e.mFrameLastUsed = 100 ∧ e.mFrameLastUpToDate = 102) ∧
      (∃ e, (CachedTexture.Create goodEnv direct16 world100).1 = some e ∧
        e.mFrameLastUsed = 100 ∧ e.mFrameLastUpToDate = 100) :=
  ⟨(Create_jitter goodEnv direct16 world100Freq4 (plainTexture 16 16)
      (by decide) (by decide) rfl).imp
      fun _ h => ⟨h.1, h.2.1, ((h.2.2.1 (by decide)).2.2 (by decide)).trans (by decide)⟩,
   (Create_jitter goodEnv direct16 world100 (plainTexture 16 16)
      (by decide) (by decide) rfl).imp
      fun _ h => ⟨h.1, h.2.1, h.2.2.2 rfl⟩⟩

/-- A non-null result of `Create` is the object `Initialise` leaves after a successful
allocation, on a descriptor with non-zero width and height. -/
theorem Create_some (env : Env) (ti : TextureInfo) (w : World) (e : CachedTexture)
    (hc : (CachedTexture.Create env ti w).1 = some e) :
    ti.Width ≠ 0 ∧ ti.Height ≠ 0 ∧
      (∃ tex, env.NativeTexture_Create
        (if ti.EmulateMirrorS then u32 (ti.Width * 2) else ti.Width)
        (if ti.EmulateMirrorT then u32 (ti.Height * 2) else ti.Height) = some tex) ∧
      e = ((CachedTexture.ctor ti w).Initialise env w).2.1 := by
  by_cases hz : ti.Width = 0 ∨ ti.Height = 0
  · simp [CachedTexture.Create, hz] at hc
  · have hw : ti.Width ≠ 0 := fun h => hz (Or.inl h)
    have hh : ti.Height ≠ 0 := fun h => hz (Or.inr h)
    refine ⟨hw, hh, ?_⟩
    cases ha : env.NativeTexture_Create
        (if ti.EmulateMirrorS then u32 (ti.Width * 2) else ti.Width)
        (if ti.EmulateMirrorT then u32 (ti.Height * 2) else ti.Height) with
    | none =>
      have hi : ((CachedTexture.ctor ti w).Initialise env w).1 = false := by
        simp [CachedTexture.Initialise, CachedTexture.ctor, callNativeTextureCreate, ha]
      rw [Create_of_nonzero env ti w hw hh, hi] at hc
      simp at hc
    | some tex =>
      rw [Create_of_allocated env ti w tex hw hh ha] at hc
      exact ⟨⟨tex, rfl⟩, (Option.some.inj hc).symm⟩

/-- The entity `Create` returns was last used on the frame of its creation. -/
theorem Create_lastUsed (env : Env) (ti : TextureInfo) (w : World) (e : CachedTexture)
    (hc : (CachedTexture.Create env ti w).1 = some e) :
    e.mFrameLastUsed = w.gRDPFrame := by
  obtain ⟨-, -, ⟨tex, ha⟩, he⟩ := Create_some env ti w e hc
  obtain ⟨w1, -, -, -, -, -, hused, -⟩ := Initialise_of_allocated env ti w tex ha
  rw [he]; exact hused

/-- Over calls of `UpdateIfNecessary` on frames that never go below the frame of the last
use, `mFrameLastUsed` never decreases. -/
theorem updateRun_lastUsed_chain (e : CachedTexture) (steps : List (Env × World))
    (h : List.Chain (· ≤ ·) e.mFrameLastUsed (steps.map fun s => s.2.gRDPFrame)) :
    List.Chain (fun a b : CachedTexture => a.mFrameLastUsed ≤ b.mFrameLastUsed) e
      ((updateRun e steps).map fun r => r.2.1) := by
  induction steps generalizing e with
  | nil => exact List.Chain.nil
  | cons s rest ih =>
    obtain ⟨env, w⟩ := s
    simp only [List.map_cons, List.chain_cons] at h
    have hu := (UpdateIfNecessary_lastUsed env e w).1
    simp only [updateRun, List.map_cons]
    refine List.Chain.cons (by rw [hu]; exact h.1) (ih _ ?_)
    rw [hu]; exact h.2

/-- Over such calls `mFrameLastUpToDate` never decreases either, provided it does not
exceed `mFrameLastUsed` at the start. -/
theorem updateRun_upToDate_chain (e : CachedTexture) (steps : List (Env × World))
    (h : List.Chain (· ≤ ·) e.mFrameLastUsed (steps.map fun s => s.2.gRDPFrame))
    (hle : e.mFrameLastUpToDate ≤ e.mFrameLastUsed) :
    List.Chain (fun a b : CachedTexture => a.mFrameLastUpToDate ≤ b.mFrameLastUpToDate) e
      ((updateRun e steps).map fun r => r.2.1) := by
  induction steps generalizing e with
  | nil => exact List.Chain.nil
  | cons s rest ih =>
    obtain ⟨env, w⟩ := s
    simp only [List.map_cons, List.chain_cons] at h
    simp only [updateRun, List.map_cons]
    by_cases hf : e.mFrameLastUsed = w.gRDPFrame
    · rw [UpdateIfNecessary_of_fresh env e w hf]
      refine List.Chain.cons (Nat.le_refl _) (ih e ?_ hle)
      rw [hf]; exact h.2
    · rw [UpdateIfNecessary_of_stale env e w hf]
      exact List.Chain.cons (Nat.le_trans hle h.1) (ih _ h.2 (Nat.le_refl _))

/-- C13 (amended): for an entity returned by `Create` and any sequence of
`UpdateIfNecessary` calls on frames that never go below the previous one, `mFrameLastUsed`
never decreases from one state to the next; `mFrameLastUpToDate` never decreases either
when it starts at or below the creation frame, which is the case when the hash-check
frequency is 0. -/
theorem stamps_monotone (env : Env) (ti : TextureInfo) (w : World) (e : CachedTexture)
    (steps : List (Env × World))
    (hc : (CachedTexture.Create env ti w).1 = some e)
    (hframes : List.Chain (· ≤ ·) w.gRDPFrame (steps.map fun s => s.2.gRDPFrame)) :
    List.Chain (fun a b : CachedTexture => a.mFrameLastUsed ≤ b.mFrameLastUsed) e
        ((updateRun e steps).map fun r => r.2.1) ∧
      (e.mFrameLastUpToDate ≤ w.gRDPFrame →
        List.Chain (fun a b : CachedTexture => a.mFrameLastUpToDate ≤ b.mFrameLastUpToDate) e
          ((updateRun e steps).map fun r => r.2.1)) ∧
      (w.gCheckTextureHashFrequency = 0 → e.mFrameLastUpToDate ≤ w.gRDPFrame) := by
  have hused := Create_lastUsed env ti w e hc
  rw [← hused] at hframes
  refine ⟨updateRun_lastUsed_chain e steps hframes, ?_, ?_⟩
  · intro hle
    exact updateRun_upToDate_chain e steps hframes (by rw [hused]; exact hle)
  · intro hF
    obtain ⟨-, -, ⟨tex, ha⟩, he⟩ := Create_some env ti w e hc
    rw [he, Initialise_upToDate env ti w tex ha, hF]
    exact Nat.le_refl _

/-- C13 for the entity created at frame 100 without hash checks and accessed on frames 100,
101, 101 and 105: neither stamp ever decreases. -/
theorem stamps_monotone_witness :
    List.Chain (fun a b : CachedTexture => a.mFrameLastUsed ≤ b.mFrameLastUsed) created100
        ((updateRun created100 accesses).map fun r => r.2.1) ∧
      List.Chain (fun a b : CachedTexture => a.mFrameLastUpToDate ≤ b.mFrameLastUpToDate)
        created100 ((updateRun created100 accesses).map fun r => r.2.1) :=
  have h := stamps_monotone goodEnv direct16 world100 created100 accesses rfl
    (by simp [accesses, worldAt, world100])
  ⟨h.1, h.2.1 (h.2.2 rfl)⟩

/-- C13 as stated fails for `mFrameLastUpToDate`: created at frame 100 with frequency 4 and
a draw of 54 the entity carries 102, and the refresh at frame 101 lowers it to 101. -/
theorem upToDate_drops_after_jitter :
    ∃ e, (CachedTexture.Create goodEnv direct16 world100Freq4).1 = some e ∧
      e.mFrameLastUpToDate = 102 ∧
      world100Freq4.gRDPFrame ≤ 101 ∧
      (e.UpdateIfNecessary goodEnv { world100Freq4 with gRDPFrame := 101 }).1.mFrameLastUpToDate
        = 101 :=
  ⟨_, rfl, rfl, by decide, rfl⟩

/-! ## Retries -/

/-- On a texture with data `UpdateTexture` calls a decoder exactly once. -/
theorem UpdateTexture_decodes_once (env : Env) (ti : TextureInfo) (tex : CNativeTexture)
    (w : World) (hd : tex.HasData = true) :
    ((newCalls w (UpdateTexture env ti (some tex) w).2).filter Call.isDecode).length = 1 := by
  obtain ⟨⟨c, hc, hcalls⟩, -⟩ := GenerateTexels_effect env ti tex.Stride tex.BytesRequired w
  cases hg : GenerateTexels env ti tex.Stride tex.BytesRequired w with
  | mk r w1 =>
    rw [hg] at hcalls
    simp only at hcalls
    cases r with
    | none =>
      rw [UpdateTexture_of_failed env ti tex w w1 hd hg, newCalls_of_append w w1 [c] hcalls]
      simp [hc]
    | some texels =>
      obtain ⟨h1, -, -⟩ := UpdateTexture_of_generated env ti tex w w1 texels hd hg
      have hn : newCalls w (UpdateTexture env ti (some tex) w).2 =
          c :: transformCalls env.White ti tex texels := by
        apply newCalls_of_append
        rw [h1, hcalls]; simp
      have hnil : (transformCalls env.White ti tex texels).filter Call.isDecode = [] := by
        rw [List.filter_eq_nil_iff]
        intro x hx
        simp [(transformCalls_kinds _ _ _ _ x hx).2]
      rw [hn, List.filter_cons, hc, if_pos rfl, hnil]
      rfl

/-- Over calls of `UpdateIfNecessary` each made on a frame other than the frame of the
previous use, an entity whose texture has data calls a decoder exactly once per call. -/
theorem updateRun_decodes_each (e : CachedTexture) (tex : CNativeTexture)
    (steps : List (Env × World)) (htex : e.mpTexture = some tex) (hd : tex.HasData = true)
    (h : List.Chain (· ≠ ·) e.mFrameLastUsed (steps.map fun s => s.2.gRDPFrame)) :
    ∀ r ∈ updateRun e steps, (r.2.2.filter Call.isDecode).length = 1 := by
  induction steps generalizing e tex with
  | nil => intro r hr; cases hr
  | cons s rest ih =>
    obtain ⟨env, w⟩ := s
    simp only [List.map_cons, List.chain_cons] at h
    obtain ⟨-, -, ⟨d, hd2⟩⟩ := UpdateTexture_effect env e.mTextureInfo e.mpTexture w
    intro r hr
    simp only [updateRun, List.mem_cons] at hr
    rw [UpdateIfNecessary_of_stale env e w h.1] at hr
    rcases hr with hr | hr
    · rw [hr]
      simp only
      rw [htex]
      exact UpdateTexture_decodes_once env e.mTextureInfo tex w hd
    · refine ih _ { tex with data := d } ?_ hd h.2 r hr
      simp only
      rw [hd2, htex]; rfl

/-- C14: let the entity own a texture with data, be stale at frame `w.gRDPFrame`, and let the
decoder run by `UpdateIfNecessary` fail.  Then both stamps become the frame, as they do with
any other collaborators, the texture is left as it was, and the decoder was called once;
and in every later call made on a frame other than that of the previous access, whatever
the decoders return there, a decoder is called once again. -/
theorem failed_decode_retries (env : Env) (e : CachedTexture) (w : World)
    (tex : CNativeTexture) (steps : List (Env × World))
    (htex : e.mpTexture = some tex) (hd : tex.HasData = true)
    (hstale : e.mFrameLastUsed ≠ w.gRDPFrame)
    (hfail : decoderVerdict env e.mTextureInfo tex.Stride tex.BytesRequired w = false)
    (hframes : List.Chain (· ≠ ·) w.gRDPFrame (steps.map fun s => s.2.gRDPFrame)) :
    (e.UpdateIfNecessary env w).1.mFrameLastUpToDate = w.gRDPFrame ∧
      (e.UpdateIfNecessary env w).1.mFrameLastUsed = w.gRDPFrame ∧
      (∀ env2 : Env,
        (e.UpdateIfNecessary env2 w).1.mFrameLastUpToDate = w.gRDPFrame ∧
        (e.UpdateIfNecessary env2 w).1.mFrameLastUsed = w.gRDPFrame) ∧
      (e.UpdateIfNecessary env w).1.mpTexture = some tex ∧
      ((newCalls w (e.UpdateIfNecessary env w).2).filter Call.isDecode).length = 1 ∧
      (∀ r ∈ updateRun (e.UpdateIfNecessary env w).1 steps,
        (r.2.2.filter Call.isDecode).length = 1) := by
  have hstamps : ∀ env2 : Env,
      (e.UpdateIfNecessary env2 w).1.mFrameLastUpToDate = w.gRDPFrame ∧
      (e.UpdateIfNecessary env2 w).1.mFrameLastUsed = w.gRDPFrame := by
    intro env2
    rw [UpdateIfNecessary_of_stale env2 e w hstale]
    exact ⟨rfl, rfl⟩
  have hkeep : (UpdateTexture env e.mTextureInfo (some tex) w).1 = some tex := by
    have hres := GenerateTexels_result env e.mTextureInfo tex.Stride tex.BytesRequired w
    rw [hfail] at hres
    cases hg : GenerateTexels env e.mTextureInfo tex.Stride tex.BytesRequired w with
    | mk r w1 =>
      rw [hg] at hres
      simp only at hres
      subst hres
      rw [UpdateTexture_of_failed env e.mTextureInfo tex w w1 hd hg]
  have htex2 : (e.UpdateIfNecessary env w).1.mpTexture = some tex := by
    rw [UpdateIfNecessary_of_stale env e w hstale]
    simp only
    rw [htex]; exact hkeep
  refine ⟨(hstamps env).1, (hstamps env).2, hstamps, htex2, ?_, ?_⟩
  · rw [UpdateIfNecessary_of_stale env e w hstale]
    simp only
    rw [htex]
    exact UpdateTexture_decodes_once env e.mTextureInfo tex w hd
  · apply updateRun_decodes_each _ tex steps htex2 hd
    rw [(hstamps env).2]
    exact hframes

/-- C14 for the entity last used at frame 90, accessed at frames 100, 101 and 102 with
decoders that always fail: both stamps become 100, the texture is untouched, and each of
the three calls runs the decoder once. -/
theorem failed_decode_retries_witness :
    (entity90.UpdateIfNecessary badDecodeEnv world100).1.mFrameLastUpToDate = 100 ∧
      (entity90.UpdateIfNecessary badDecodeEnv world100).1.mFrameLastUsed = 100 ∧
      (entity90.UpdateIfNecessary badDecodeEnv world100).1.mpTexture =
        some (plainTexture 16 16) ∧
      ((newCalls world100 (entity90.UpdateIfNecessary badDecodeEnv world100).2).filter
        Call.isDecode).length = 1 ∧
      (∀ r ∈ updateRun (entity90.UpdateIfNecessary badDecodeEnv world100).1 failingAccesses,
        (r.2.2.filter Call.isDecode).length = 1) :=
  have h := failed_decode_retries badDecodeEnv entity90 world100 (plainTexture 16 16)
    failingAccesses rfl rfl (by decide) rfl (by simp [failingAccesses, worldAt, world100])
  ⟨h.1, h.2.1, h.2.2.2.1, h.2.2.2.2.1, h.2.2.2.2.2⟩

/-! ## Initial conversion -/

/-- C15 (amended): for a descriptor with non-zero width and height whose allocation
succeeds with a texture that has data, `Create` returns an entity, its first call is the
allocation, and the calls after it contain exactly one decoder call: one conversion, made
after the allocation. -/
theorem Create_converts_once (env : Env) (ti : TextureInfo) (w : World)
    (tex : CNativeTexture) (hw : ti.Width ≠ 0) (hh : ti.Height ≠ 0)
    (ha : env.NativeTexture_Create
        (if ti.EmulateMirrorS then u32 (ti.Width * 2) else ti.Width)
        (if ti.EmulateMirrorT then u32 (ti.Height * 2) else ti.Height) = some tex)
    (hd : tex.HasData = true) :
    ∃ e tr, (CachedTexture.Create env ti w).1 = some e ∧
      newCalls w (CachedTexture.Create env ti w).2 =
        Call.NativeTexture_Create
          (if ti.EmulateMirrorS then u32 (ti.Width * 2) else ti.Width)
          (if ti.EmulateMirrorT then u32 (ti.Height * 2) else ti.Height) :: tr ∧
      (tr.filter Call.isDecode).length = 1 ∧
      ((newCalls w (CachedTexture.Create env ti w).2).filter Call.isDecode).length = 1 := by
  obtain ⟨w1, hc1, -, -, -, -, -, hworld⟩ := Initialise_of_allocated env ti w tex ha
  obtain ⟨⟨tr, htr, -, -⟩, -, -⟩ := UpdateTexture_effect env ti (some tex) w1
  have hone := UpdateTexture_decodes_once env ti tex w1 hd
  rw [newCalls_of_append w1 _ tr htr] at hone
  have hcalls : newCalls w (CachedTexture.Create env ti w).2 =
      Call.NativeTexture_Create
          (if ti.EmulateMirrorS then u32 (ti.Width * 2) else ti.Width)
          (if ti.EmulateMirrorT then u32 (ti.Height * 2) else ti.Height) :: tr := by
    apply newCalls_of_append
    rw [Create_of_allocated env ti w tex hw hh ha]
    simp only [hworld, htr, hc1, List.append_assoc, List.singleton_append]
  refine ⟨_, tr, by rw [Create_of_allocated env ti w tex hw hh ha], hcalls, hone, ?_⟩
  rw [hcalls, List.filter_cons]
  simpa [Call.isDecode] using hone

/-- C15 for the 16 by 16 direct-load descriptor: allocation, then the conversion with its
single decoder call. -/
theorem Create_converts_once_witness :
    newCalls world100 (CachedTexture.Create goodEnv direct16 world100).2 =
        [Call.NativeTexture_Create 16 16, Call.ConvertTexture direct16 0x10400 64,
         Call.ClampTexels 0x10400 16 16 16 16 64, Call.SetData 0x8000 0x10400] ∧
      ((newCalls world100 (CachedTexture.Create goodEnv direct16 world100).2).filter
        Call.isDecode).length = 1 :=
  ⟨rfl,
   (Create_converts_once goodEnv direct16 world100 (plainTexture 16 16)
      (by decide) (by decide) rfl rfl).elim fun _ h => h.elim fun _ h2 => h2.2.2.2⟩

/-- C15 as stated fails: when the allocator returns a texture object without data, `Create`
returns an entity although its only call was the allocation, with no decoder call. -/
theorem Create_without_conversion :
    direct16.Width ≠ 0 ∧ direct16.Height ≠ 0 ∧
      (∃ e, (CachedTexture.Create noDataEnv direct16 world100).1 = some e) ∧
      newCalls world100 (CachedTexture.Create noDataEnv direct16 world100).2 =
        [Call.NativeTexture_Create 16 16] :=
  ⟨by decide, by decide, ⟨_, rfl⟩, rfl⟩

/-! ## Wrapping of the frame clock -/

/-- The 32-bit difference is unchanged when both words are advanced by the same amount,
wrapping or not. -/
theorem u32sub_shift (a b k : Nat) : u32sub (u32 (a + k)) (u32 (b + k)) = u32sub a b := by
  unfold u32sub u32
  omega

/-- C16: `HasExpired` reads the frame clock and `mFrameLastUsed` only through their 32-bit
difference, which is the integer difference reduced modulo 2^32; so advancing both by any
`k`, wrapping at 2^32, leaves the result and the generator as they were. -/
theorem HasExpired_shift_invariant (env : Env) (e : CachedTexture) (w : World) (k : Nat) :
    (e.HasExpired env w).1 =
        decide (u32sub w.gRDPFrame e.mFrameLastUsed >
          20 + ((env.FastRand w.gFastRandSeed).1 &&& 3)) ∧
      ((u32sub w.gRDPFrame e.mFrameLastUsed : Nat) : Int) =
        ((w.gRDPFrame : Int) - (e.mFrameLastUsed : Int)) % 2 ^ 32 ∧
      ({ e with mFrameLastUsed := u32 (e.mFrameLastUsed + k) }.HasExpired env
          { w with gRDPFrame := u32 (w.gRDPFrame + k) }).1 = (e.HasExpired env w).1 ∧
      ({ e with mFrameLastUsed := u32 (e.mFrameLastUsed + k) }.HasExpired env
          { w with gRDPFrame := u32 (w.gRDPFrame + k) }).2.gFastRandSeed =
        (e.HasExpired env w).2.gFastRandSeed := by
  refine ⟨rfl, ?_, ?_, rfl⟩
  · unfold u32sub
    omega
  · simp only [CachedTexture.HasExpired, callFastRand, u32sub_shift]

/-- C16 across the wrap: last used at frame 2^32 - 5 and checked at frame 20, the 32-bit
difference is 25 and the entity has expired, exactly as for last use at 90 and a check at
115, the same pair moved back by 2^32 - 95. -/
theorem HasExpired_shift_invariant_witness :
    u32sub 20 4294967291 = 25 ∧
      ({ entity90 with mFrameLastUsed := 4294967291 }.HasExpired goodEnv (worldAt 20)).1 =
        true ∧
      (entity90.HasExpired goodEnv (worldAt 115)).1 = true ∧
      ({ entity90 with mFrameLastUsed := u32 (90 + 4294967201) }.HasExpired goodEnv
          { worldAt 115 with gRDPFrame := u32 (115 + 4294967201) }).1 =
        (entity90.HasExpired goodEnv (worldAt 115)).1 :=
  ⟨by decide, by decide, by decide,
   (HasExpired_shift_invariant goodEnv entity90 (worldAt 115) 4294967201).2.2.1⟩

/-! ## What the methods leave alone -/

/-- C17: `UpdateIfNecessary` leaves the stored descriptor as it was and the owned texture
the same object with the same allocation-time properties, only its pixel data possibly
replaced (and a null texture null).  `IsFresh` and `HasExpired` are const methods: they
return no entity, so every entity field is as before; `HasExpired` leaves the world as it
was but for the seed of the generator, and logs no call. -/
theorem UpdateIfNecessary_keeps_identity (env : Env) (e : CachedTexture) (w : World) :
    (e.UpdateIfNecessary env w).1.mTextureInfo = e.mTextureInfo ∧
      (∃ d, (e.UpdateIfNecessary env w).1.mpTexture =
        e.mpTexture.map fun tex => { tex with data := d }) ∧
      (∀ tex2, (e.UpdateIfNecessary env w).1.mpTexture = some tex2 →
        ∃ tex, e.mpTexture = some tex ∧ tex2.addr = tex.addr ∧ tex2.HasData = tex.HasData ∧
          tex2.Stride = tex.Stride ∧ tex2.BytesRequired = tex.BytesRequired ∧
          tex2.CorrectedWidth = tex.CorrectedWidth ∧
          tex2.CorrectedHeight = tex.CorrectedHeight) ∧
      (e.HasExpired env w).2 = { w with gFastRandSeed := (env.FastRand w.gFastRandSeed).2 } ∧
      newCalls w (e.HasExpired env w).2 = [] := by
  have hmap : ∃ d, (e.UpdateIfNecessary env w).1.mpTexture =
      e.mpTexture.map fun tex => { tex with data := d } := by
    by_cases h : e.mFrameLastUsed = w.gRDPFrame
    · rw [UpdateIfNecessary_of_fresh env e w h]
      cases hm : e.mpTexture with
      | none => exact ⟨fun _ => 0, rfl⟩
      | some tex => exact ⟨tex.data, rfl⟩
    · rw [UpdateIfNecessary_of_stale env e w h]
      exact (UpdateTexture_effect env e.mTextureInfo e.mpTexture w).2.2
  refine ⟨?_, hmap, ?_, rfl, by simp [CachedTexture.HasExpired, callFastRand, newCalls]⟩
  · by_cases h : e.mFrameLastUsed = w.gRDPFrame
    · rw [UpdateIfNecessary_of_fresh env e w h]
    · rw [UpdateIfNecessary_of_stale env e w h]
  · intro tex2 h2
    obtain ⟨d, hd⟩ := hmap
    rw [hd] at h2
    cases hm : e.mpTexture with
    | none => rw [hm] at h2; cases h2
    | some tex =>
      rw [hm] at h2
      refine ⟨tex, rfl, ?_⟩
      rw [← Option.some.inj h2]
      exact ⟨rfl, rfl, rfl, rfl, rfl, rfl⟩

/-- C17 for the entity last used at frame 90 and refreshed at frame 100: the descriptor is
still the 16 by 16 one and the texture is still the object at address 0x8000, now holding
the decoded bytes. -/
theorem UpdateIfNecessary_keeps_identity_witness :
    (entity90.UpdateIfNecessary goodEnv world100).1.mTextureInfo = direct16 ∧
      (∃ d, (entity90.UpdateIfNecessary goodEnv world100).1.mpTexture =
        some { plainTexture 16 16 with data := d }) ∧
      (entity90.UpdateIfNecessary goodEnv world100).1.mpTexture =
        some { plainTexture 16 16 with data := fun _ => 0xFF } :=
  ⟨(UpdateIfNecessary_keeps_identity goodEnv entity90 world100).1,
   (UpdateIfNecessary_keeps_identity goodEnv entity90 world100).2.1, rfl⟩

/-! ## Refreshes per frame -/

/-- The counter `refreshes` is 0 on an entity last used on the current frame and 1 on any
other. -/
theorem refreshes_eq (e : CachedTexture) (w : World) :
    e.refreshes w = if e.mFrameLastUsed = w.gRDPFrame then 0 else 1 := by
  by_cases h : e.mFrameLastUsed = w.gRDPFrame
  · simp [CachedTexture.refreshes, CachedTexture.IsFresh, h]
  · have h2 : ¬ w.gRDPFrame = e.mFrameLastUsed := fun h3 => h h3.symm
    simp [CachedTexture.refreshes, CachedTexture.IsFresh, h, h2]

/-- The counter `refreshes` tells what `UpdateIfNecessary` does: at 0 the entity and the
world are returned as given, at 1 the world and the texture are those `UpdateTexture`
leaves. -/
theorem refreshes_sound (env : Env) (e : CachedTexture) (w : World) :
    (e.refreshes w = 0 → e.UpdateIfNecessary env w = (e, w)) ∧
      (e.refreshes w = 1 →
        (e.UpdateIfNecessary env w).2 = (UpdateTexture env e.mTextureInfo e.mpTexture w).2 ∧
        (e.UpdateIfNecessary env w).1.mpTexture =
          (UpdateTexture env e.mTextureInfo e.mpTexture w).1) := by
  rw [refreshes_eq]
  by_cases h : e.mFrameLastUsed = w.gRDPFrame
  · simp only [h, if_true]
    exact ⟨fun _ => UpdateIfNecessary_of_fresh env e w h, fun h1 => absurd h1 (by decide)⟩
  · simp only [h, if_false]
    refine ⟨fun h0 => absurd h0 (by decide), fun _ => ?_⟩
    rw [UpdateIfNecessary_of_stale env e w h]
    exact ⟨rfl, rfl⟩

/-- In a list that never goes down from `g`, every element is at least `g`. -/
theorem le_of_mem_chain (g : Nat) (l : List Nat) (h : List.Chain (· ≤ ·) g l) :
    ∀ x ∈ l, g ≤ x := by
  induction l generalizing g with
  | nil => intro x hx; cases hx
  | cons a rest ih =>
    simp only [List.chain_cons] at h
    intro x hx
    rcases List.mem_cons.mp hx with hx | hx
    · rw [hx]; exact h.1
    · exact Nat.le_trans h.1 (ih a h.2 x hx)

/-- Over calls on frames that never go below the frame of the last use, the calls made on
frame `f` enter `UpdateTexture` once in all when `f` is an accessed frame above the frame of
the last use at the start, and never otherwise. -/
theorem refreshesOn_eq (f : Nat) (e : CachedTexture) (steps : List (Env × World))
    (h : List.Chain (· ≤ ·) e.mFrameLastUsed (steps.map fun s => s.2.gRDPFrame)) :
    refreshesOn f e steps =
      if e.mFrameLastUsed < f ∧ f ∈ steps.map (fun s => s.2.gRDPFrame) then 1 else 0 := by
  induction steps generalizing e with
  | nil => simp [refreshesOn]
  | cons s rest ih =>
    obtain ⟨env, w⟩ := s
    simp only [List.map_cons, List.chain_cons] at h
    have hu := (UpdateIfNecessary_lastUsed env e w).1
    have hrest := ih (e.UpdateIfNecessary env w).1 (by rw [hu]; exact h.2)
    have hmem := le_of_mem_chain _ _ h.2
    simp only [refreshesOn, hrest, hu, refreshes_eq, List.map_cons, List.mem_cons]
    by_cases hfg : w.gRDPFrame = f
    · subst hfg
      by_cases hug : e.mFrameLastUsed = w.gRDPFrame
      · simp [hug]
      · have : e.mFrameLastUsed < w.gRDPFrame := by omega
        simp [hug, this]
    · have hfg2 : ¬ f = w.gRDPFrame := fun h3 => hfg h3.symm
      by_cases hin : f ∈ rest.map (fun s => s.2.gRDPFrame)
      · have hge := hmem f hin
        have h1 : w.gRDPFrame < f := by omega
        have h2 : e.mFrameLastUsed < f := by omega
        simp [hfg, hfg2, hin, h1, h2]
      · simp [hfg, hfg2, hin]

/-- One call of `UpdateIfNecessary` logs at most as many decoder calls as it enters
`UpdateTexture`, and exactly as many when the texture has data. -/
theorem decodes_le_refreshes (env : Env) (e : CachedTexture) (w : World) :
    ((newCalls w (e.UpdateIfNecessary env w).2).filter Call.isDecode).length ≤
        e.refreshes w ∧
      (∀ tex, e.mpTexture = some tex → tex.HasData = true →
        ((newCalls w (e.UpdateIfNecessary env w).2).filter Call.isDecode).length =
          e.refreshes w) := by
  rw [refreshes_eq]
  by_cases h : e.mFrameLastUsed = w.gRDPFrame
  · rw [UpdateIfNecessary_of_fresh env e w h]
    simp [newCalls, h]
  · rw [UpdateIfNecessary_of_stale env e w h]
    simp only [h, if_false]
    constructor
    · obtain ⟨⟨tr, htr, -, hone⟩, -, -⟩ := UpdateTexture_effect env e.mTextureInfo e.mpTexture w
      rw [newCalls_of_append w _ tr htr]
      exact hone
    · intro tex htex hd
      rw [htex]
      exact UpdateTexture_decodes_once env e.mTextureInfo tex w hd

/-- Frame by frame, a run logs at most as many decoder calls as it enters
`UpdateTexture`. -/
theorem decodesOn_le (f : Nat) (e : CachedTexture) (steps : List (Env × World)) :
    decodesOn f (updateRun e steps) ≤ refreshesOn f e steps := by
  induction steps generalizing e with
  | nil => simp [decodesOn, updateRun, refreshesOn]
  | cons s rest ih =>
    obtain ⟨env, w⟩ := s
    simp only [updateRun, decodesOn, refreshesOn]
    have h1 := (decodes_le_refreshes env e w).1
    have h2 := ih (e.UpdateIfNecessary env w).1
    by_cases hf : w.gRDPFrame = f <;> simp only [hf, if_true, if_false] <;> omega

/-- Frame by frame, a run on an entity whose texture has data logs exactly as many decoder
calls as it enters `UpdateTexture`. -/
theorem decodesOn_eq (f : Nat) (e : CachedTexture) (tex : CNativeTexture)
    (steps : List (Env × World)) (htex : e.mpTexture = some tex) (hd : tex.HasData = true) :
    decodesOn f (updateRun e steps) = refreshesOn f e steps := by
  induction steps generalizing e tex with
  | nil => simp [decodesOn, updateRun, refreshesOn]
  | cons s rest ih =>
    obtain ⟨env, w⟩ := s
    simp only [updateRun, decodesOn, refreshesOn]
    have h1 := (decodes_le_refreshes env e w).2 tex htex hd
    obtain ⟨d, hmap⟩ : ∃ d, (e.UpdateIfNecessary env w).1.mpTexture =
        some { tex with data := d } := by
      by_cases h : e.mFrameLastUsed = w.gRDPFrame
      · rw [UpdateIfNecessary_of_fresh env e w h, htex]
        exact ⟨tex.data, rfl⟩
      · rw [UpdateIfNecessary_of_stale env e w h]
        obtain ⟨-, -, ⟨d, hd2⟩⟩ := UpdateTexture_effect env e.mTextureInfo e.mpTexture w
        exact ⟨d, by simp only; rw [hd2, htex]; rfl⟩
    have h2 := ih (e.UpdateIfNecessary env w).1 { tex with data := d } hmap hd
    by_cases hf : w.gRDPFrame = f <;> simp only [hf, if_true, if_false] <;> omega

/-- The decoder calls `Create` logs number at most one. -/
theorem Create_decodes_le_one (env : Env) (ti : TextureInfo) (w : World) :
    ((newCalls w (CachedTexture.Create env ti w).2).filter Call.isDecode).length ≤ 1 := by
  by_cases hz : ti.Width = 0 ∨ ti.Height = 0
  · simp [CachedTexture.Create, hz, newCalls]
  · have hw : ti.Width ≠ 0 := fun h => hz (Or.inl h)
    have hh : ti.Height ≠ 0 := fun h => hz (Or.inr h)
    cases ha : env.NativeTexture_Create
        (if ti.EmulateMirrorS then u32 (ti.Width * 2) else ti.Width)
        (if ti.EmulateMirrorT then u32 (ti.Height * 2) else ti.Height) with
    | none =>
      have hi : ((CachedTexture.ctor ti w).Initialise env w).2.2 =
          w.log (Call.NativeTexture_Create
            (if ti.EmulateMirrorS then u32 (ti.Width * 2) else ti.Width)
            (if ti.EmulateMirrorT then u32 (ti.Height * 2) else ti.Height)) := by
        simp [CachedTexture.Initialise, CachedTexture.ctor, callNativeTextureCreate, ha]
      rw [Create_of_nonzero env ti w hw hh]
      simp [hi, newCalls, Call.isDecode]
    | some tex =>
      obtain ⟨w1, hc1, -, -, -, -, -, hworld⟩ := Initialise_of_allocated env ti w tex ha
      obtain ⟨⟨tr, htr, -, hone⟩, -, -⟩ := UpdateTexture_effect env ti (some tex) w1
      have hcalls : newCalls w (CachedTexture.Create env ti w).2 =
          Call.NativeTexture_Create
              (if ti.EmulateMirrorS then u32 (ti.Width * 2) else ti.Width)
              (if ti.EmulateMirrorT then u32 (ti.Height * 2) else ti.Height) :: tr := by
        apply newCalls_of_append
        rw [Create_of_allocated env ti w tex hw hh ha]
        simp only [hworld, htr, hc1, List.append_assoc, List.singleton_append]
      rw [hcalls, List.filter_cons]
      simpa [Call.isDecode] using hone

/-- C18: for an entity created on frame `c0 = w.gRDPFrame` and any sequence of
`UpdateIfNecessary` calls on frames that never go below the previous one, the calls made
on any one frame enter `UpdateTexture` at most once in all, those made on `c0` never (the
conversion of that frame is the one `Create` made), and those made on an accessed frame
above `c0` exactly once.  Frame by frame the decoder calls logged number at most the
entries, and exactly the entries when the texture has data; on `c0` the decoder calls of
`Create` and of the sequence together number at most one. -/
theorem refresh_once_per_frame (env : Env) (ti : TextureInfo) (w : World) (e : CachedTexture)
    (steps : List (Env × World))
    (hc : (CachedTexture.Create env ti w).1 = some e)
    (hframes : List.Chain (· ≤ ·) w.gRDPFrame (steps.map fun s => s.2.gRDPFrame)) :
    (∀ f, refreshesOn f e steps ≤ 1) ∧
      refreshesOn w.gRDPFrame e steps = 0 ∧
      (∀ f, w.gRDPFrame < f → f ∈ steps.map (fun s => s.2.gRDPFrame) →
        refreshesOn f e steps = 1) ∧
      (∀ f, decodesOn f (updateRun e steps) ≤ refreshesOn f e steps) ∧
      (∀ tex, e.mpTexture = some tex → tex.HasData = true →
        ∀ f, decodesOn f (updateRun e steps) = refreshesOn f e steps) ∧
      ((newCalls w (CachedTexture.Create env ti w).2).filter Call.isDecode).length +
        decodesOn w.gRDPFrame (updateRun e steps) ≤ 1 := by
  have hused := Create_lastUsed env ti w e hc
  rw [← hused] at hframes
  have heq := fun f => refreshesOn_eq f e steps hframes
  have hzero : refreshesOn w.gRDPFrame e steps = 0 := by
    rw [heq, hused]; simp
  refine ⟨?_, hzero, ?_, fun f => decodesOn_le f e steps,
    fun tex htex hd f => decodesOn_eq f e tex steps htex hd, ?_⟩
  · intro f
    rw [heq]
    split <;> omega
  · intro f hlt hin
    rw [heq, hused, if_pos ⟨hlt, hin⟩]
  · have h1 := Create_decodes_le_one env ti w
    have h2 := decodesOn_le w.gRDPFrame e steps
    omega

/-- C18 for the entity created at frame 100 and accessed on frames 100, 101, 101 and 105:
no refresh on frame 100, one on frame 101, one on frame 105, none on the unvisited frame
103, and one decoder call on frame 101. -/
theorem refresh_once_per_frame_witness :
    refreshesOn 100 created100 accesses = 0 ∧
      refreshesOn 101 created100 accesses = 1 ∧
      refreshesOn 105 created100 accesses = 1 ∧
      refreshesOn 103 created100 accesses ≤ 1 ∧
      decodesOn 101 (updateRun created100 accesses) = 1 :=
  have h := refresh_once_per_frame goodEnv direct16 world100 created100 accesses rfl
    (by simp [accesses, worldAt, world100])
  ⟨h.2.1,
   h.2.2.1 101 (by decide) (by simp [accesses, worldAt, world100]),
   h.2.2.1 105 (by decide) (by simp [accesses, worldAt, world100]),
   h.1 103,
   (h.2.2.2.2.1 _ rfl rfl 101).trans
     (h.2.2.1 101 (by decide) (by simp [accesses, worldAt, world100]))⟩

/-! ## The stamp `mFrameLastUpToDate` is never read -/

/-- One call of `UpdateIfNecessary` on two entity states that differ at most in
`mFrameLastUpToDate`: the same world results, the resulting states again differ at most in
that stamp, and they are equal when the entity was stale. -/
theorem UpdateIfNecessary_congr (env : Env) (a b : CachedTexture) (w : World)
    (h : sameButUpToDate a b) :
    (a.UpdateIfNecessary env w).2 = (b.UpdateIfNecessary env w).2 ∧
      sameButUpToDate (a.UpdateIfNecessary env w).1 (b.UpdateIfNecessary env w).1 ∧
      (a.mFrameLastUsed ≠ w.gRDPFrame →
        (a.UpdateIfNecessary env w).1 = (b.UpdateIfNecessary env w).1) := by
  obtain ⟨ti, tex, up, used⟩ := a
  obtain ⟨ti2, tex2, up2, used2⟩ := b
  obtain ⟨h1, h2, h3⟩ := h
  simp only at h1 h2 h3
  subst h1 h2 h3
  by_cases hf : used = w.gRDPFrame
  · rw [UpdateIfNecessary_of_fresh env _ w hf, UpdateIfNecessary_of_fresh env _ w hf]
    exact ⟨rfl, ⟨rfl, rfl, rfl⟩, fun hn => absurd hf hn⟩
  · rw [UpdateIfNecessary_of_stale env _ w hf, UpdateIfNecessary_of_stale env _ w hf]
    exact ⟨rfl, ⟨rfl, rfl, rfl⟩, fun _ => rfl⟩

/-- Over any sequence of calls, two entity states that differ at most in
`mFrameLastUpToDate` make the same collaborator calls on the same frames and stay states
that differ at most in that stamp. -/
theorem updateRun_congr (a b : CachedTexture) (steps : List (Env × World))
    (h : sameButUpToDate a b) :
    (updateRun a steps).map (fun r => (r.1, r.2.2)) =
        (updateRun b steps).map (fun r => (r.1, r.2.2)) ∧
      List.Forall₂ sameButUpToDate ((updateRun a steps).map fun r => r.2.1)
        ((updateRun b steps).map fun r => r.2.1) := by
  induction steps generalizing a b with
  | nil => exact ⟨rfl, List.Forall₂.nil⟩
  | cons s rest ih =>
    obtain ⟨env, w⟩ := s
    obtain ⟨hw, hrel, -⟩ := UpdateIfNecessary_congr env a b w h
    obtain ⟨ih1, ih2⟩ := ih _ _ hrel
    simp only [updateRun, List.map_cons]
    exact ⟨by rw [hw, ih1], List.Forall₂.cons hrel ih2⟩

/-- C19 (amended): for two entity states that differ at most in `mFrameLastUpToDate`, in any
world and with any collaborators, `IsFresh` and `HasExpired` return the same, and
`UpdateIfNecessary` makes the same calls and leaves the same world and two states that
again differ at most in `mFrameLastUpToDate`; these are equal when the entity was stale, and
keep their own stamps when it was fresh.  So over any sequence of calls the two make the
same calls on the same frames. -/
theorem upToDate_never_read (env : Env) (a b : CachedTexture) (w : World)
    (steps : List (Env × World)) (h : sameButUpToDate a b) :
    a.IsFresh w = b.IsFresh w ∧
      a.HasExpired env w = b.HasExpired env w ∧
      (a.UpdateIfNecessary env w).2 = (b.UpdateIfNecessary env w).2 ∧
      newCalls w (a.UpdateIfNecessary env w).2 = newCalls w (b.UpdateIfNecessary env w).2 ∧
      sameButUpToDate (a.UpdateIfNecessary env w).1 (b.UpdateIfNecessary env w).1 ∧
      (a.mFrameLastUsed ≠ w.gRDPFrame →
        (a.UpdateIfNecessary env w).1 = (b.UpdateIfNecessary env w).1) ∧
      (a.mFrameLastUsed = w.gRDPFrame →
        (a.UpdateIfNecessary env w).1 = a ∧ (b.UpdateIfNecessary env w).1 = b) ∧
      (updateRun a steps).map (fun r => (r.1, r.2.2)) =
        (updateRun b steps).map (fun r => (r.1, r.2.2)) ∧
      List.Forall₂ sameButUpToDate ((updateRun a steps).map fun r => r.2.1)
        ((updateRun b steps).map fun r => r.2.1) := by
  obtain ⟨hw, hrel, hstale⟩ := UpdateIfNecessary_congr env a b w h
  obtain ⟨hr1, hr2⟩ := updateRun_congr a b steps h
  refine ⟨?_, ?_, hw, by rw [hw], hrel, hstale, ?_, hr1, hr2⟩
  · simp only [CachedTexture.IsFresh, h.2.2]
  · simp only [CachedTexture.HasExpired, h.2.2]
  · intro hf
    rw [UpdateIfNecessary_of_fresh env a w hf,
      UpdateIfNecessary_of_fresh env b w (h.2.2 ▸ hf)]
    exact ⟨rfl, rfl⟩

/-- C19 for the two entities last used at frame 100 with `mFrameLastUpToDate` 90 and 95:
same freshness, same expiry, same calls over the accesses on frames 100, 101, 101, 105. -/
theorem upToDate_never_read_witness :
    sameButUpToDate usedAt100 usedAt100UpToDate95 ∧
      usedAt100.IsFresh world100 = usedAt100UpToDate95.IsFresh world100 ∧
      usedAt100.HasExpired goodEnv world100 = usedAt100UpToDate95.HasExpired goodEnv world100 ∧
      (updateRun usedAt100 accesses).map (fun r => (r.1, r.2.2)) =
        (updateRun usedAt100UpToDate95 accesses).map (fun r => (r.1, r.2.2)) :=
  have h := upToDate_never_read goodEnv usedAt100 usedAt100UpToDate95 world100 accesses
    ⟨rfl, rfl, rfl⟩
  ⟨⟨rfl, rfl, rfl⟩, h.1, h.2.1, h.2.2.2.2.2.2.2.1⟩

/-- C19 as stated fails: the two entities differ only in `mFrameLastUpToDate`, both are
fresh at frame 100, and `UpdateIfNecessary` leaves them with the stamps 90 and 95, so not
in the same final state. -/
theorem upToDate_survives_fresh_update :
    sameButUpToDate usedAt100 usedAt100UpToDate95 ∧
      (usedAt100.UpdateIfNecessary goodEnv world100).1.mFrameLastUpToDate = 90 ∧
      (usedAt100UpToDate95.UpdateIfNecessary goodEnv world100).1.mFrameLastUpToDate = 95 ∧
      (usedAt100.UpdateIfNecessary goodEnv world100).1 ≠
        (usedAt100UpToDate95.UpdateIfNecessary goodEnv world100).1 :=
  ⟨⟨rfl, rfl, rfl⟩, rfl, rfl,
   fun h => absurd (congrArg CachedTexture.mFrameLastUpToDate h) (by decide)⟩

end Daedalus
